import Mathlib

/-!
Shallow embedding of the wallet-ledger and payment-reconciliation core of the
supermarket application, together with proofs about the spec's claims.

Conventions of the embedding:
* Money amounts are modelled as exact rationals (`ℚ`); the JavaScript source
  uses IEEE doubles, but no claim here depends on floating-point rounding.
* The relational tables `user_wallets`, `orders` and `transactions` are
  modelled as lists of rows inside a `Db` value; SQL `AUTO_INCREMENT` ids are
  modelled by the `nextTxnId` / `nextOrderId` counters.
* Each MySQL transaction (`beginTransaction` … `commit` / `rollback`) becomes
  a pure function `Db → Db × Except String α`: the returned `Db` is the
  committed state, and on the error paths the input `Db` is returned
  unchanged, mirroring `ROLLBACK`.
* External gateway calls (Alipay / PayPal / NETS HTTP requests) are modelled
  by explicit outcome parameters, since the network is outside the program.
-/

namespace Supermarket

/-- Row of the `user_wallets` table. -/
structure WalletRow where
  user_id : Nat
  balance : ℚ
  frozen_balance : ℚ
  total_income : ℚ
  total_expense : ℚ
deriving Repr, DecidableEq

/-- Row of the `transactions` table.  The `type` column is called `txType`
(`type` clashes with Lean's `Type`). -/
structure Txn where
  id : Nat
  user_id : Nat
  order_id : Option Nat
  txType : String
  payment_method : Option String
  amount : ℚ
  balance_before : ℚ
  balance_after : ℚ
  status : String
  description : String
deriving Repr, DecidableEq

/-- Row of the `orders` table (the slice of it the ledger core reacts to). -/
structure OrderRow where
  id : Nat
  user_id : Nat
  total : ℚ
  is_confirmed : Bool
deriving Repr, DecidableEq

/-- The database state seen by the wallet/payment subsystem. -/
structure Db where
  wallets : List WalletRow
  orders : List OrderRow
  txns : List Txn
  nextTxnId : Nat
  nextOrderId : Nat
deriving Repr, DecidableEq

/-- `SELECT * FROM user_wallets WHERE user_id = ?`. -/
def getWallet (db : Db) (uid : Nat) : Option WalletRow :=
  db.wallets.find? (fun w => w.user_id == uid)

/-- `UPDATE user_wallets SET … WHERE user_id = ?` (no-op when the row is
absent, as in SQL). -/
def updateWallet (db : Db) (uid : Nat) (f : WalletRow → WalletRow) : Db :=
  { db with wallets := db.wallets.map (fun w => if w.user_id == uid then f w else w) }

/-- `INSERT INTO user_wallets (user_id, balance) VALUES (?, 0)
ON DUPLICATE KEY UPDATE user_id = user_id` — the idempotent wallet-creation
statement used by the recharge paths. -/
def ensureWallet (db : Db) (uid : Nat) : Db :=
  match getWallet db uid with
  | some _ => db
  | none =>
      { db with wallets := db.wallets ++
          [{ user_id := uid, balance := 0, frozen_balance := 0,
             total_income := 0, total_expense := 0 }] }

/-- Column values accepted by `Transaction.create` (models/transaction.js):
`status` defaults to `'completed'` and `description` to `NULL` when omitted,
exactly as in `transaction.status || 'completed'` / `|| null`.  Inserts that
name the `status` column explicitly pass it as `some _`.  (The SQL schema
itself is not part of the repository sources; the `'completed'` default of
`Transaction.create` is used for the inserts that omit the column.) -/
structure TxnInput where
  user_id : Nat
  order_id : Option Nat
  txType : String
  payment_method : Option String
  amount : ℚ
  balance_before : ℚ
  balance_after : ℚ
  status : Option String
  description : Option String

/-- The row inserted for a `TxnInput` with a given `insertId`. -/
def mkTxn (id : Nat) (t : TxnInput) : Txn :=
  { id := id, user_id := t.user_id, order_id := t.order_id,
    txType := t.txType, payment_method := t.payment_method,
    amount := t.amount, balance_before := t.balance_before,
    balance_after := t.balance_after,
    status := t.status.getD "completed",
    description := t.description.getD "" }

/-- `Transaction.create` (models/transaction.js): `INSERT INTO transactions …`;
returns the `insertId`. -/
def transactionCreate (db : Db) (t : TxnInput) : Db × Nat :=
  ({ db with
      txns := db.txns ++ [mkTxn db.nextTxnId t],
      nextTxnId := db.nextTxnId + 1 }, db.nextTxnId)

/-- `Transaction.getById`: `SELECT * FROM transactions WHERE id = ? LIMIT 1`. -/
def getTxn (db : Db) (id : Nat) : Option Txn :=
  db.txns.find? (fun t => t.id == id)

/-- The gateway modules' `getTransactionById`:
`SELECT … FROM transactions WHERE id = ? AND user_id = ? LIMIT 1`. -/
def getTxnForUser (db : Db) (id uid : Nat) : Option Txn :=
  db.txns.find? (fun t => t.id == id && t.user_id == uid)

/-- `UPDATE transactions SET … WHERE id = ?`. -/
def updateTxn (db : Db) (id : Nat) (f : Txn → Txn) : Db :=
  { db with txns := db.txns.map (fun t => if t.id == id then f t else t) }

/-- `Transaction.updateStatusAndDescription` (models/transaction.js). -/
def updateStatusAndDescription (db : Db) (id : Nat) (status : String)
    (description : Option String) : Db :=
  updateTxn db id (fun t => { t with status := status, description := description.getD "" })

/-! ### String helpers

The JavaScript source manipulates identifiers with `String.prototype` methods
and regular expressions; these are modelled by structurally recursive
functions on `List Char` (kernel-computable, unlike the iterator-based
`String` primitives). -/

/-- JavaScript `String.prototype.trim()`. -/
def jsTrim (s : String) : String :=
  String.mk (((s.data.dropWhile Char.isWhitespace).reverse.dropWhile Char.isWhitespace).reverse)

/-- JavaScript `String.prototype.toLowerCase()` (ASCII fragment). -/
def jsToLower (s : String) : String :=
  String.mk (s.data.map Char.toLower)

/-- MySQL `INSTR(s, pat) > 0`, i.e. `pat` occurs as a substring of `s`
(collation case differences play no role for the lower-case markers used). -/
def containsSubstr (s pat : String) : Bool :=
  decide (pat.data <:+: s.data)

/-- Character class `[A-Za-z0-9_\-]` of the identifier-capturing regexes. -/
def isIdentChar (c : Char) : Bool :=
  c.isAlphanum || c == '_' || c == '-'

/-- Digit run to a number (for the `TXN_(\d+)` captures). -/
def digitsToNat (cs : List Char) : Nat :=
  cs.foldl (fun n c => n * 10 + (c.toNat - 48)) 0

/-- The characters following the first occurrence of `key` in the haystack
(`none` when `key` does not occur). -/
def afterKey (key : List Char) : List Char → Option (List Char)
  | [] => if key.isEmpty then some [] else none
  | c :: rest =>
      if key.isPrefixOf (c :: rest) then some ((c :: rest).drop key.length)
      else afterKey key rest

/-- The capture of `key\s*[:=]?\s*([A-Za-z0-9_\-]+)` (or with a mandatory
`[:=]` when `sepRequired` is true) at the first occurrence of `key`.  The
regex engine's backtracking to later occurrences is not modelled; the
descriptions written by this code base carry the token right after the
first occurrence of the key. -/
def parseKeyToken (key : String) (desc : String) (sepRequired : Bool) : Option String :=
  match afterKey key.data desc.data with
  | none => none
  | some rest =>
      let rest' := rest.dropWhile Char.isWhitespace
      match rest' with
      | c :: tail =>
          if c == ':' || c == '=' then
            let tok := (tail.dropWhile Char.isWhitespace).takeWhile isIdentChar
            if tok.isEmpty then none else some (String.mk tok)
          else if sepRequired then none
          else
            let tok := rest'.takeWhile isIdentChar
            if tok.isEmpty then none else some (String.mk tok)
      | [] => none

/-- The bare `\b(TXN_\d+)\b` fallback of `parseAlipayIdsFromTxn`. -/
def parseTxnToken (desc : String) : Option String :=
  match afterKey "TXN_".data desc.data with
  | none => none
  | some rest =>
      let ds := rest.takeWhile Char.isDigit
      if ds.isEmpty then none else some ("TXN_" ++ String.mk ds)

/-- `parseTransactionId`: the `^TXN_(\d+)$` match on a trimmed
`out_trade_no` (shared by all three gateway modules). -/
def parseTransactionId (s : String) : Option Nat :=
  match (jsTrim s).data with
  | 'T' :: 'X' :: 'N' :: '_' :: rest =>
      if !rest.isEmpty && rest.all Char.isDigit then some (digitsToNat rest) else none
  | _ => none

/-! ### Wallet model (src/models/wallet.js) -/

/-- `Wallet.freezeBalance(userId, orderId, amount)`: row-locks the wallet,
fails when `balance < amount`, otherwise moves `amount` from `balance` to
`frozen_balance` (also bumping `total_expense`) and records a `purchase`
transaction with the negated amount and the order id.  Returns the new
available balance. -/
def freezeBalance (db : Db) (userId orderId : Nat) (amount : ℚ) :
    Db × Except String ℚ :=
  match getWallet db userId with
  | none => (db, .error "Wallet not found")
  | some w =>
      if w.balance < amount then (db, .error "Insufficient balance")
      else
        let balanceBefore := w.balance
        let balanceAfter := w.balance - amount
        let db := updateWallet db userId (fun w =>
          { w with balance := w.balance - amount,
                   frozen_balance := w.frozen_balance + amount,
                   total_expense := w.total_expense + amount })
        let db := (transactionCreate db
          { user_id := userId, order_id := some orderId, txType := "purchase",
            payment_method := none, amount := -amount,
            balance_before := balanceBefore, balance_after := balanceAfter,
            status := none,
            description := some ("Payment for order #" ++ toString orderId) }).1
        (db, .ok balanceAfter)

/-- `Wallet.confirmDelivery(orderId, userId, adminId, amount)`: deducts the
payer's `frozen_balance`, credits the admin's `balance` (and
`total_income`), and records the admin's `income` transaction — all in one
database transaction. -/
def confirmDelivery (db : Db) (orderId userId adminId : Nat) (amount : ℚ) :
    Db × Except String Unit :=
  let db := updateWallet db userId (fun w =>
    { w with frozen_balance := w.frozen_balance - amount })
  let adminBalanceBefore := match getWallet db adminId with
    | some w => w.balance
    | none => 0
  let adminBalanceAfter := adminBalanceBefore + amount
  let db := updateWallet db adminId (fun w =>
    { w with balance := w.balance + amount, total_income := w.total_income + amount })
  let db := (transactionCreate db
    { user_id := adminId, order_id := some orderId, txType := "income",
      payment_method := none, amount := amount,
      balance_before := adminBalanceBefore, balance_after := adminBalanceAfter,
      status := none,
      description := some ("Income from order #" ++ toString orderId ++
        " (confirmed delivery)") }).1
  (db, .ok ())

/-- `Wallet.refund(orderId, userId, amount)`: adds `amount` back to
`balance`, clamps `frozen_balance` at zero (`GREATEST(0, …)`) and records a
`refund` transaction. -/
def walletRefund (db : Db) (orderId userId : Nat) (amount : ℚ) :
    Db × Except String ℚ :=
  let balanceBefore := match getWallet db userId with
    | some w => w.balance
    | none => 0
  let balanceAfter := balanceBefore + amount
  let db := updateWallet db userId (fun w =>
    { w with frozen_balance := max 0 (w.frozen_balance - amount),
             balance := w.balance + amount })
  let db := (transactionCreate db
    { user_id := userId, order_id := some orderId, txType := "refund",
      payment_method := none, amount := amount,
      balance_before := balanceBefore, balance_after := balanceAfter,
      status := none,
      description := some ("Refund for order #" ++ toString orderId) }).1
  (db, .ok balanceAfter)

/-- `Wallet.recharge(userId, amount, description)`: ensures the wallet row,
credits `balance` and records a `recharge` transaction. -/
def walletRecharge (db : Db) (userId : Nat) (amount : ℚ)
    (description : Option String) : Db × Except String ℚ :=
  let db := ensureWallet db userId
  match getWallet db userId with
  | none => (db, .error "Wallet not found")
  | some w =>
      let balanceBefore := w.balance
      let balanceAfter := balanceBefore + amount
      let db := updateWallet db userId (fun w => { w with balance := w.balance + amount })
      let db := (transactionCreate db
        { user_id := userId, order_id := none, txType := "recharge",
          payment_method := none, amount := amount,
          balance_before := balanceBefore, balance_after := balanceAfter,
          status := none,
          description := some (description.getD "Wallet recharge") }).1
      (db, .ok balanceAfter)

/-- Modelled from the spec: `Wallet.debitBalanceInTx(connection, userId,
amount)` is called by `refundTransaction` (src/controllers/refundControllers.js)
but its definition is not among the repository sources.  Spec §4.1:
"`debit(userId, amount)`: fails with `InsufficientFunds` if
`balance < amount`; otherwise decrements `balance`, increments nothing else,
returns `{before, after}`." -/
def debitBalanceInTx (db : Db) (userId : Nat) (amount : ℚ) :
    Db × Except String (ℚ × ℚ) :=
  match getWallet db userId with
  | none => (db, .error "Wallet not found")
  | some w =>
      if w.balance < amount then (db, .error "Insufficient balance")
      else
        (updateWallet db userId (fun w => { w with balance := w.balance - amount }),
         .ok (w.balance, w.balance - amount))

/-- Modelled from the spec: `Wallet.creditBalanceInTx(connection, userId,
amount)` is called by `refundTransaction`'s compensation path but its
definition is not among the repository sources.  Spec §4.1:
"`credit(userId, amount)`: increments `balance` unconditionally; returns
`{before, after}`" (a wallet row must exist to report `{before, after}`). -/
def creditBalanceInTx (db : Db) (userId : Nat) (amount : ℚ) :
    Db × Except String (ℚ × ℚ) :=
  match getWallet db userId with
  | none => (db, .error "Wallet not found")
  | some w =>
      (updateWallet db userId (fun w => { w with balance := w.balance + amount }),
       .ok (w.balance, w.balance + amount))

/-! ### Alipay request signing (utils/alipaySandbox: `signParams`,
`buildGatewayUrl`) -/

/-- Lexicographic comparison of strings by character code, as JavaScript's
default `Array.prototype.sort()` compares strings (code-unit order; the
parameter keys involved are ASCII). -/
def charListLe : List Char → List Char → Bool
  | [], _ => true
  | _ :: _, [] => false
  | a :: as, b :: bs =>
      if a.val < b.val then true
      else if b.val < a.val then false
      else charListLe as bs

/-- `a` sorts no later than `b` under JavaScript string comparison. -/
def strLe (a b : String) : Prop := charListLe a.data b.data = true

instance : DecidableRel strLe := fun a b => by
  unfold strLe; infer_instance

/-- JavaScript property access `params[k]` on an object modelled as an
association list with `none` for `undefined`/`null` values. -/
def jsLookup (params : List (String × Option String)) (k : String) : Option String :=
  (params.find? (fun p => p.1 == k)).bind Prod.snd

/-- `Object.keys(params).filter(k => params[k] !== undefined && params[k]
!== null && params[k] !== '')` of `signParams`. -/
def presentKeys (params : List (String × Option String)) : List String :=
  (params.map Prod.fst).filter (fun k =>
    match jsLookup params k with
    | some v => !(v == "")
    | none => false)

/-- The `signContent` string of `signParams`: the kept keys sorted and
joined as `key=value` pairs with `&`. -/
def signContent (params : List (String × Option String)) : String :=
  String.intercalate "&"
    (((presentKeys params).insertionSort strLe).map
      (fun k => k ++ "=" ++ ((jsLookup params k).getD "")))

/-- `signParams(params, privateKey)`: RSA-SHA256 over the UTF-8 bytes of the
canonical string.  The cryptographic signer is outside the embedding and is
passed as the abstract function `rsaSign`. -/
def signParams (rsaSign : String → String)
    (params : List (String × Option String)) : String :=
  rsaSign (signContent params)

/-- `buildGatewayUrl`: the query-parameter list of the outgoing request —
`{...params, sign}` filtered to the defined, non-empty values, in insertion
order (the URL prefix itself carries no parameter information). -/
def buildGatewayParams (rsaSign : String → String)
    (params : List (String × Option String)) : List (String × String) :=
  let sign := signParams rsaSign params
  (params ++ [("sign", some sign)]).filterMap (fun p =>
    match p.2 with
    | some v => if v == "" then none else some (p.1, v)
    | none => none)

/-- Key order on parameter pairs induced by `strLe` on the keys. -/
def pairLe (p q : String × String) : Prop := strLe p.1 q.1

instance : DecidableRel pairLe := fun p q => by
  unfold pairLe; infer_instance

/-- Transcribed from the specification's wording for request signing:
"exactly the parameters whose values are neither undefined, null, nor the
empty string", kept with their values in their original order. -/
def specKeptPairs (params : List (String × Option String)) :
    List (String × String) :=
  params.filterMap (fun p =>
    match p.2 with
    | some v => if v == "" then none else some (p.1, v)
    | none => none)

/-- Transcribed from the specification's wording: the kept parameters with
"their keys sorted lexicographically, joined as key=value pairs with
the ampersand", the string handed to the RSA signer. -/
def specSignContent (params : List (String × Option String)) : String :=
  String.intercalate "&"
    (((specKeptPairs params).insertionSort pairLe).map
      (fun p => p.1 ++ "=" ++ p.2))

/-- Transcribed from the specification's wording: the outgoing request is
the kept parameters with "the result appended as an additional sign
parameter". -/
def specSignedQuery (rsaSign : String → String)
    (params : List (String × Option String)) : List (String × String) :=
  specKeptPairs params ++ [("sign", rsaSign (specSignContent params))]

/-! ### Alipay reconciliation (utils/alipaySandbox) -/

/-- Outcome of `queryTrade` as observed by `tryFinalizeTransaction`: either
a failure (network error, malformed response or a non-`10000` code — all
rejected into the `catch`) or the `trade_status` / `trade_no` pair of a
successful `alipay.trade.query`. -/
inductive AlipayQuery
  | err (msg : String)
  | ok (tradeStatus : String) (tradeNo : String)
deriving Repr, DecidableEq

/-- `createPendingRechargeTransaction` (alipay variant): ensures the wallet
row and inserts a `pending` `recharge` transaction snapshotting the current
balance.  Returns the new transaction id. -/
def alipayCreatePending (db : Db) (userId : Nat) (amount : ℚ) :
    Db × Except String Nat :=
  let db := ensureWallet db userId
  match getWallet db userId with
  | none => (db, .error "Wallet not found")
  | some w =>
      let r := transactionCreate db
        { user_id := userId, order_id := none, txType := "recharge",
          payment_method := some "alipay", amount := amount,
          balance_before := w.balance, balance_after := w.balance,
          status := some "pending",
          description := some "Alipay sandbox recharge (pending)" }
      (r.1, .ok r.2)

/-- Result of a gateway `tryFinalizeTransaction` / `finalizeRechargeTransaction`
run: the committed state, the outcome (payment status string on success),
and how many provider calls were made along the way. -/
structure FinalizeResult where
  db : Db
  out : Except String String
  providerCalls : Nat
deriving Repr

/-- Alipay `tryFinalizeTransaction`: row-locks the transaction; an
already-`completed` transaction returns `paid` without querying the
provider; otherwise it queries Alipay and, on `TRADE_SUCCESS`/`TRADE_FINISHED`,
credits the wallet and completes the transaction in the same database
transaction. -/
def alipayTryFinalize (db : Db) (transactionId userId : Nat)
    (outTradeNo : String) (query : AlipayQuery) : FinalizeResult :=
  match getTxnForUser db transactionId userId with
  | none => ⟨db, .error "Transaction not found", 0⟩
  | some t =>
      if t.txType != "recharge" || t.payment_method != some "alipay" then
        ⟨db, .error "Invalid transaction", 0⟩
      else if t.status == "completed" then ⟨db, .ok "paid", 0⟩
      else
        match query with
        | .err m => ⟨db, .error m, 1⟩
        | .ok tradeStatus tradeNo =>
            if tradeStatus != "TRADE_SUCCESS" && tradeStatus != "TRADE_FINISHED" then
              ⟨db, .ok "pending", 1⟩
            else
              let db := ensureWallet db t.user_id
              match getWallet db t.user_id with
              | none => ⟨db, .error "Wallet not found", 1⟩
              | some w =>
                  let balanceBefore := w.balance
                  let balanceAfter := w.balance + t.amount
                  let db := updateWallet db t.user_id (fun w =>
                    { w with balance := w.balance + t.amount })
                  let db := updateTxn db t.id (fun t0 =>
                    { t0 with balance_before := balanceBefore,
                              balance_after := balanceAfter,
                              status := "completed",
                              description := "Alipay sandbox recharge (out_trade_no: " ++
                                outTradeNo ++ ", trade_no: " ++ tradeNo ++ ")" })
                  ⟨db, .ok "paid", 1⟩

/-- JSON reply of a status handler (`safeJson(res, code, payload)`), reduced
to the fields the claims talk about. -/
structure StatusResp where
  http : Nat
  ok : Bool
  status : String
  paid : Bool
  errMsg : Option String
deriving Repr, DecidableEq

/-- A status handler's run: committed state, reply, and number of provider
calls made. -/
structure HandlerResult where
  db : Db
  resp : StatusResp
  providerCalls : Nat
deriving Repr, DecidableEq

/-- Alipay `handleStatus`: parameter/config guards, transaction load, the
`completed → paid` short-circuit, otherwise `tryFinalizeTransaction`
(whose errors degrade to `pending`). -/
def alipayHandleStatus (db : Db) (userId : Nat) (outTradeNoRaw : String)
    (configOk : Bool) (query : AlipayQuery) : HandlerResult :=
  let outTradeNo := jsTrim outTradeNoRaw
  if outTradeNo == "" then
    ⟨db, ⟨400, false, "", false, some "Missing out_trade_no"⟩, 0⟩
  else
    match parseTransactionId outTradeNo with
    | none => ⟨db, ⟨400, false, "", false, some "Invalid out_trade_no"⟩, 0⟩
    | some transactionId =>
        if !configOk then ⟨db, ⟨500, false, "", false, some "config"⟩, 0⟩
        else
          match getTxnForUser db transactionId userId with
          | none => ⟨db, ⟨404, false, "", false, some "Transaction not found"⟩, 0⟩
          | some transaction =>
              if transaction.status == "completed" then
                ⟨db, ⟨200, true, "paid", true, none⟩, 0⟩
              else
                let r := alipayTryFinalize db transactionId userId outTradeNo query
                match r.out with
                | .error m => ⟨r.db, ⟨200, true, "pending", false, some m⟩, r.providerCalls⟩
                | .ok s => ⟨r.db, ⟨200, true, s, s == "paid", none⟩, r.providerCalls⟩

/-! ### PayPal reconciliation (utils/paypalSandbox) -/

/-- `parsePayPalOrderId`: the `/paypal_order_id:([A-Za-z0-9]+)/` capture. -/
def parsePayPalOrderId (description : String) : Option String :=
  match afterKey "paypal_order_id:".data description.data with
  | none => none
  | some rest =>
      let tok := rest.takeWhile Char.isAlphanum
      if tok.isEmpty then none else some (String.mk tok)

/-- `createPendingRechargeTransaction` (paypal variant). -/
def paypalCreatePending (db : Db) (userId : Nat) (amount : ℚ) :
    Db × Except String Nat :=
  let db := ensureWallet db userId
  match getWallet db userId with
  | none => (db, .error "Wallet not found")
  | some w =>
      let r := transactionCreate db
        { user_id := userId, order_id := none, txType := "recharge",
          payment_method := some "paypal", amount := amount,
          balance_before := w.balance, balance_after := w.balance,
          status := some "pending",
          description := some "PayPal sandbox recharge (pending)" }
      (r.1, .ok r.2)

/-- PayPal `finalizeRechargeTransaction`: like the Alipay finalizer but the
provider has already been consulted by the handler, so no provider call
happens here; credits the wallet and completes the transaction. -/
def paypalFinalizeRecharge (db : Db) (transactionId userId : Nat)
    (orderId : String) (captureId : Option String) : FinalizeResult :=
  match getTxnForUser db transactionId userId with
  | none => ⟨db, .error "Transaction not found", 0⟩
  | some t =>
      if t.txType != "recharge" || t.payment_method != some "paypal" then
        ⟨db, .error "Invalid transaction", 0⟩
      else if t.status == "completed" then ⟨db, .ok "paid", 0⟩
      else
        let db := ensureWallet db t.user_id
        match getWallet db t.user_id with
        | none => ⟨db, .error "Wallet not found", 0⟩
        | some w =>
            let balanceBefore := w.balance
            let balanceAfter := w.balance + t.amount
            let db := updateWallet db t.user_id (fun w =>
              { w with balance := w.balance + t.amount })
            let db := updateTxn db t.id (fun t0 =>
              { t0 with balance_before := balanceBefore,
                        balance_after := balanceAfter,
                        status := "completed",
                        description := "PayPal sandbox recharge (order_id: " ++ orderId ++
                          ", capture_id: " ++ captureId.getD "N/A" ++ ")" })
            ⟨db, .ok "paid", 0⟩

/-- The provider-side data PayPal `handleStatus` can observe: the order
lookup (`getOrder`), the capture id embedded in that order, and the capture
call (`captureOrder`) with its capture id. -/
structure PaypalProvider where
  getOrderStatus : Except String String
  orderCaptureId : Option String
  captureStatus : Except String String
  captureCaptureId : Option String

/-- PayPal `handleStatus`: guards, the `completed → paid` short-circuit,
then `getOrder`; `APPROVED` orders are captured and finalized, `COMPLETED`
orders finalized directly, anything else (and every provider error) is
reported as `pending`. -/
def paypalHandleStatus (db : Db) (userId : Nat) (outTradeNoRaw : String)
    (configOk : Bool) (provider : PaypalProvider) : HandlerResult :=
  let outTradeNo := jsTrim outTradeNoRaw
  if outTradeNo == "" then
    ⟨db, ⟨400, false, "", false, some "Missing out_trade_no"⟩, 0⟩
  else
    match parseTransactionId outTradeNo with
    | none => ⟨db, ⟨400, false, "", false, some "Invalid out_trade_no"⟩, 0⟩
    | some transactionId =>
        if !configOk then ⟨db, ⟨500, false, "", false, some "config"⟩, 0⟩
        else
          match getTxnForUser db transactionId userId with
          | none => ⟨db, ⟨404, false, "", false, some "Transaction not found"⟩, 0⟩
          | some transaction =>
              if transaction.status == "completed" then
                ⟨db, ⟨200, true, "paid", true, none⟩, 0⟩
              else
                match parsePayPalOrderId transaction.description with
                | none => ⟨db, ⟨200, true, "pending", false, none⟩, 0⟩
                | some orderId =>
                    match provider.getOrderStatus with
                    | .error m => ⟨db, ⟨200, true, "pending", false, some m⟩, 1⟩
                    | .ok orderStatus =>
                        if orderStatus == "APPROVED" then
                          match provider.captureStatus with
                          | .error m => ⟨db, ⟨200, true, "pending", false, some m⟩, 2⟩
                          | .ok captureStatus =>
                              if captureStatus == "COMPLETED" then
                                let r := paypalFinalizeRecharge db transactionId userId
                                  orderId provider.captureCaptureId
                                match r.out with
                                | .error m => ⟨r.db, ⟨200, true, "pending", false, some m⟩, 2⟩
                                | .ok _ => ⟨r.db, ⟨200, true, "paid", true, none⟩, 2⟩
                              else ⟨db, ⟨200, true, "pending", false, none⟩, 2⟩
                        else if orderStatus == "COMPLETED" then
                          let r := paypalFinalizeRecharge db transactionId userId
                            orderId provider.orderCaptureId
                          match r.out with
                          | .error m => ⟨r.db, ⟨200, true, "pending", false, some m⟩, 1⟩
                          | .ok _ => ⟨r.db, ⟨200, true, "paid", true, none⟩, 1⟩
                        else ⟨db, ⟨200, true, "pending", false, none⟩, 1⟩

/-! ### NETS QR reconciliation (utils/netsSandbox) -/

/-- Outcome of a `queryQrTransaction` call as seen by the callers: a thrown
error, a reply without `result.data`, or the `response_code` / `txn_status`
pair (`txn_status` arrives as a number). -/
inductive NetsQuery
  | err (msg : String)
  | nodata
  | data (responseCode : String) (txnStatus : Int)
deriving Repr, DecidableEq

/-- `createPendingRechargeTransaction` (nets variant). -/
def netsCreatePending (db : Db) (userId : Nat) (amount : ℚ) :
    Db × Except String Nat :=
  let db := ensureWallet db userId
  match getWallet db userId with
  | none => (db, .error "Wallet not found")
  | some w =>
      let r := transactionCreate db
        { user_id := userId, order_id := none, txType := "recharge",
          payment_method := some "nets", amount := amount,
          balance_before := w.balance, balance_after := w.balance,
          status := some "pending",
          description := some "NETS recharge (pending)" }
      (r.1, .ok r.2)

/-- The description written by `markAuthorizedFromGateway`. -/
def netsAuthDesc (responseCode : String) (txnStatus : Int)
    (txnRetrievalRef : String) : String :=
  "NETS recharge (authorized)" ++
    (if responseCode != "" then " response_code:" ++ responseCode else "") ++
    (" txn_status:" ++ toString txnStatus) ++
    (if txnRetrievalRef != "" then " txn_retrieval_ref:" ++ txnRetrievalRef else "")

/-- The `WHERE` clause of `markAuthorizedFromGateway`'s `UPDATE`. -/
def netsPendingHit (transactionId userId : Nat) (t : Txn) : Bool :=
  t.id == transactionId && t.user_id == userId && t.txType == "recharge" &&
    t.payment_method == some "nets" && t.status == "pending"

/-- `markAuthorizedFromGateway`: `UPDATE transactions SET status='authorized'
… WHERE id = ? AND user_id = ? AND type='recharge' AND payment_method='nets'
AND status='pending'`; reports whether a row changed. -/
def netsMarkAuthorized (db : Db) (transactionId userId : Nat)
    (responseCode : String) (txnStatus : Int) (txnRetrievalRef : String) :
    Db × Bool :=
  ({ db with txns := db.txns.map (fun t =>
      if netsPendingHit transactionId userId t then
        { t with status := "authorized",
                 description := netsAuthDesc responseCode txnStatus txnRetrievalRef }
      else t) },
   db.txns.any (netsPendingHit transactionId userId))

/-- NETS `tryFinalizeTransaction`: `completed` short-circuits to `paid`;
anything other than `authorized` is left untouched and reported `pending`;
an `authorized` transaction is credited to the wallet and completed.  No
provider call is made here. -/
def netsTryFinalize (db : Db) (transactionId userId : Nat) : FinalizeResult :=
  match getTxnForUser db transactionId userId with
  | none => ⟨db, .error "Transaction not found", 0⟩
  | some t =>
      if t.txType != "recharge" || t.payment_method != some "nets" then
        ⟨db, .error "Invalid transaction", 0⟩
      else if t.status == "completed" then ⟨db, .ok "paid", 0⟩
      else if t.status != "authorized" then ⟨db, .ok "pending", 0⟩
      else
        let db := ensureWallet db t.user_id
        match getWallet db t.user_id with
        | none => ⟨db, .error "Wallet not found", 0⟩
        | some w =>
            let balanceBefore := w.balance
            let balanceAfter := w.balance + t.amount
            let db := updateWallet db t.user_id (fun w =>
              { w with balance := w.balance + t.amount })
            let db := updateTxn db t.id (fun t0 =>
              { t0 with balance_before := balanceBefore,
                        balance_after := balanceAfter,
                        status := "completed",
                        description := t0.description ++ " (completed)" })
            ⟨db, .ok "paid", 0⟩

/-- NETS `handleStatus`: guards, `completed → paid` short-circuit,
`authorized → tryFinalize`, and the pending path that queries the provider
through the cached QR session (`session` is the cached
`txn_retrieval_ref`; `none` models an absent or expired session). -/
def netsHandleStatus (db : Db) (userId : Nat) (outTradeNoRaw : String)
    (configOk : Bool) (session : Option String) (query : NetsQuery) :
    HandlerResult :=
  let outTradeNo := jsTrim outTradeNoRaw
  if outTradeNo == "" then
    ⟨db, ⟨400, false, "", false, some "Missing out_trade_no"⟩, 0⟩
  else
    match parseTransactionId outTradeNo with
    | none => ⟨db, ⟨400, false, "", false, some "Invalid out_trade_no"⟩, 0⟩
    | some transactionId =>
        if !configOk then ⟨db, ⟨500, false, "", false, some "config"⟩, 0⟩
        else
          match getTxnForUser db transactionId userId with
          | none => ⟨db, ⟨404, false, "", false, some "Transaction not found"⟩, 0⟩
          | some transaction =>
              if transaction.status == "completed" then
                ⟨db, ⟨200, true, "paid", true, none⟩, 0⟩
              else if transaction.status == "authorized" then
                let r := netsTryFinalize db transactionId userId
                match r.out with
                | .error m => ⟨r.db, ⟨200, true, "pending", false, some m⟩, 0⟩
                | .ok s => ⟨r.db, ⟨200, true, s, s == "paid", none⟩, 0⟩
              else
                match session with
                | none =>
                    ⟨db, ⟨200, true, "pending", false,
                      some "NETS session expired. Please open payment tab again."⟩, 0⟩
                | some txnRetrievalRef =>
                    match query with
                    | .err m => ⟨db, ⟨200, true, "pending", false, some m⟩, 1⟩
                    | .nodata => ⟨db, ⟨200, true, "pending", false, none⟩, 1⟩
                    | .data responseCode txnStatus =>
                        if !(responseCode == "00" && txnStatus == 1) then
                          ⟨db, ⟨200, true, "pending", false, none⟩, 1⟩
                        else
                          let db1 := (netsMarkAuthorized db transactionId userId
                            responseCode txnStatus txnRetrievalRef).1
                          let r := netsTryFinalize db1 transactionId userId
                          match r.out with
                          | .error m => ⟨r.db, ⟨200, true, "pending", false, some m⟩, 1⟩
                          | .ok s => ⟨r.db, ⟨200, true, s, s == "paid", none⟩, 1⟩

/-! ### NETS long-lived polling connection (`handleSsePaymentStatus`) -/

/-- `maxPolls` of `handleSsePaymentStatus`. -/
def sseMaxPolls : Nat := 60

/-- The `setInterval` period (milliseconds) of `handleSsePaymentStatus`. -/
def sseIntervalMs : Nat := 5000

/-- How a run of the polling loop ends. -/
inductive SseEnd
  | success
  | failData
  | errored
  | timeout
deriving Repr, DecidableEq

/-- One run of the `setInterval` loop of `handleSsePaymentStatus`, with the
provider's reply to the `n`-th poll given by `queries n`.  The result
records the committed state, the `frontend_timeout_status` flag value sent
with each provider query (in order), and how the run ended.  `fuel` starts
at `sseMaxPolls` and bounds the recursion exactly as the
`pollCount >= maxPolls` check does; `flag` is the `frontendTimeoutStatus`
variable (the source sets it to `1` only after `clearInterval`, right
before ending the stream, so no further tick can read it). -/
def sseLoop (queries : Nat → NetsQuery) (transactionId userId : Nat)
    (txnRetrievalRef : String) :
    Nat → Nat → Nat → Db → List Nat → Db × List Nat × SseEnd
  | 0, _, _, db, sent => (db, sent, SseEnd.timeout)
  | fuel + 1, pollCount, flag, db, sent =>
      let pc := pollCount + 1
      match queries pc with
      | .err _ => (db, sent ++ [flag], SseEnd.errored)
      | .nodata =>
          let sent := sent ++ [flag]
          if pc ≥ sseMaxPolls then (db, sent, SseEnd.timeout)
          else sseLoop queries transactionId userId txnRetrievalRef fuel pc flag db sent
      | .data responseCode txnStatus =>
          let sent := sent ++ [flag]
          if responseCode == "00" && txnStatus == 1 then
            let db1 := (netsMarkAuthorized db transactionId userId
              responseCode txnStatus txnRetrievalRef).1
            let r := netsTryFinalize db1 transactionId userId
            (r.db, sent, SseEnd.success)
          else if flag == 1 && (responseCode != "00" || txnStatus == 2) then
            (db, sent, SseEnd.failData)
          else if pc ≥ sseMaxPolls then (db, sent, SseEnd.timeout)
          else sseLoop queries transactionId userId txnRetrievalRef fuel pc flag db sent

/-- `handleSsePaymentStatus` after its guards: run the polling loop from
`pollCount = 0` with `frontendTimeoutStatus = 0`. -/
def sseRun (queries : Nat → NetsQuery) (transactionId userId : Nat)
    (txnRetrievalRef : String) (db : Db) : Db × List Nat × SseEnd :=
  sseLoop queries transactionId userId txnRetrievalRef sseMaxPolls 0 0 db []

/-! ### Recharge entry points (controllers/walletControllers.js `recharge`
and the gateways' `handleStart`)

`parseFloat(req.body.amount)` is modelled as an `Option ℚ` (`none` for
`NaN`); the JavaScript guard `!amount || amount <= 0` rejects `NaN`, `0`
and negative amounts. -/

/-- Result of a recharge start request: committed state, either an error
message or the id of the created pending transaction (`0` for the manual
path, which credits immediately instead of creating a pending
transaction), and the number of provider calls made. -/
structure StartResult where
  db : Db
  outcome : Except String Nat
  providerCalls : Nat
deriving Repr

/-- The shared amount guard of `recharge` and the three `handleStart`
handlers: `!amount || amount <= 0` then `amount > 10000`. -/
def amountGuard (amount : Option ℚ) : Option String :=
  if amount.getD 0 = 0 ∨ amount.getD 0 ≤ 0 then some "Invalid amount"
  else if amount.getD 0 > 10000 then some "Maximum recharge amount is $10,000"
  else none

/-- JavaScript `Number((Number(amount) * 1).toFixed(2))` of the Alipay start
path (round to cents, half away from zero for the positive amounts that
reach it). -/
def roundCents (a : ℚ) : ℚ := (⌊a * 100 + 1 / 2⌋ : ℚ) / 100

/-- Alipay `buildWalletRechargePayUrl` (as far as the ledger is concerned):
config check, then create the pending transaction; the redirect URL is
built locally (signed form), so no provider call happens. -/
def alipayBuildPayUrl (db : Db) (userId : Nat) (amount : ℚ)
    (configOk : Bool) : StartResult :=
  if !configOk then ⟨db, .error "config", 0⟩
  else
    let payAmount := roundCents amount
    match alipayCreatePending db userId payAmount with
    | (db, .error m) => ⟨db, .error m, 0⟩
    | (db, .ok id) => ⟨db, .ok id, 0⟩

/-- PayPal `buildWalletRechargePayUrl`: config check, pending transaction,
then the remote order creation (one provider call; `providerOk` tells
whether it succeeded). -/
def paypalBuildPayUrl (db : Db) (userId : Nat) (amount : ℚ)
    (configOk providerOk : Bool) : StartResult :=
  if !configOk then ⟨db, .error "config", 0⟩
  else
    match paypalCreatePending db userId amount with
    | (db, .error m) => ⟨db, .error m, 0⟩
    | (db, .ok id) =>
        if providerOk then ⟨db, .ok id, 1⟩
        else ⟨db, .error "Failed to create PayPal payment", 1⟩

/-- NETS `buildWalletRechargePayUrl`: config check, pending transaction,
then the remote QR request (one provider call). -/
def netsBuildPayUrl (db : Db) (userId : Nat) (amount : ℚ)
    (configOk providerOk : Bool) : StartResult :=
  if !configOk then ⟨db, .error "config", 0⟩
  else
    match netsCreatePending db userId amount with
    | (db, .error m) => ⟨db, .error m, 0⟩
    | (db, .ok id) =>
        if providerOk then ⟨db, .ok id, 1⟩
        else ⟨db, .error "Failed to generate NETS QR code", 1⟩

/-- Alipay `handleStart`: amount guard, then `buildWalletRechargePayUrl`. -/
def alipayHandleStart (db : Db) (userId : Nat) (amount : Option ℚ)
    (configOk : Bool) : StartResult :=
  match amountGuard amount with
  | some m => ⟨db, .error m, 0⟩
  | none => alipayBuildPayUrl db userId (amount.getD 0) configOk

/-- PayPal `handleStart`. -/
def paypalHandleStart (db : Db) (userId : Nat) (amount : Option ℚ)
    (configOk providerOk : Bool) : StartResult :=
  match amountGuard amount with
  | some m => ⟨db, .error m, 0⟩
  | none => paypalBuildPayUrl db userId (amount.getD 0) configOk providerOk

/-- NETS `handleStart`. -/
def netsHandleStart (db : Db) (userId : Nat) (amount : Option ℚ)
    (configOk providerOk : Bool) : StartResult :=
  match amountGuard amount with
  | some m => ⟨db, .error m, 0⟩
  | none => netsBuildPayUrl db userId (amount.getD 0) configOk providerOk

/-- `recharge` (controllers/walletControllers.js): the same amount guard,
then dispatch on the normalized payment method — `alipay` / `paypal` /
`nets` start a gateway recharge, anything else credits the wallet
immediately through `Wallet.recharge`. -/
def rechargeDispatch (db : Db) (userId : Nat) (amount : Option ℚ)
    (paymentMethodRaw : Option String) (configOk providerOk : Bool) : StartResult :=
  let paymentMethod := jsToLower (jsTrim (paymentMethodRaw.getD "manual"))
  match amountGuard amount with
  | some m => ⟨db, .error m, 0⟩
  | none =>
      if paymentMethod == "alipay" then
        alipayBuildPayUrl db userId (amount.getD 0) configOk
      else if paymentMethod == "paypal" then
        paypalBuildPayUrl db userId (amount.getD 0) configOk providerOk
      else if paymentMethod == "nets" then
        netsBuildPayUrl db userId (amount.getD 0) configOk providerOk
      else
        match walletRecharge db userId (amount.getD 0) (some "Manual recharge") with
        | (db, .error m) => ⟨db, .error m, 0⟩
        | (db, .ok _) => ⟨db, .ok 0, 0⟩

/-! ### Checkout (controllers/orderControllers.js) -/

/-- A cart line as used by `checkout` (price × quantity). -/
structure CartItem where
  price : ℚ
  quantity : Nat
deriving Repr, DecidableEq

/-- `Order.create` (models/order.js): insert the order row (order items are
outside the ledger core). -/
def orderCreate (db : Db) (userId : Nat) (total : ℚ) : Db × Nat :=
  let id := db.nextOrderId
  ({ db with
      orders := db.orders ++ [{ id := id, user_id := userId, total := total,
                                is_confirmed := false }],
      nextOrderId := id + 1 }, id)

/-- `checkout`: computes the cart total, pre-checks the available balance
(`balanceInfo.balance < total` → insufficient, nothing is created), then
creates the order and freezes the balance for it.  Shipment creation and
cart clearing are outside the ledger core. -/
def checkout (db : Db) (userId : Nat) (cart : List CartItem) :
    Db × Except String Nat :=
  if cart.isEmpty then (db, .error "Your cart is empty")
  else
    let total := cart.foldl (fun sum item => sum + item.price * (item.quantity : ℚ)) 0
    match getWallet db userId with
    | none => (db, .error "Failed to check wallet balance")
    | some w =>
        if w.balance < total then (db, .error "Insufficient balance")
        else
          let (db, orderId) := orderCreate db userId total
          match freezeBalance db userId orderId total with
          | (db, .error m) => (db, .error ("Payment failed: " ++ m))
          | (db, .ok _) => (db, .ok orderId)

/-! ### Refund orchestrator (controllers/refundControllers.js) -/

/-- Result of a provider refund call: success with the optional fields the
code reads off the reply (`refund_fee` / `refund_id` / `response_code` in
`a`, `txn_status` in `b`), or a rejection with its message. -/
inductive ProviderOutcome
  | ok (a b : Option String)
  | fail (reason : String)
deriving Repr, DecidableEq

/-- `refundNow`: refund a whole order through the provider that charged it.
PayPal is preferred if a PayPal transaction exists for the order, otherwise
Alipay; the recorded `refund` transaction row carries
`balance_before = balance_after = 0` (the money goes back to the provider,
not to the wallet). -/
def refundNow (db : Db) (userId orderId : Nat) (outRequestNo : String)
    (outcome : ProviderOutcome) : Db × Except String String :=
  match db.orders.find? (fun o => o.id == orderId) with
  | none => (db, .error "Order not found")
  | some order =>
      if order.user_id != userId then (db, .error "Access denied")
      else if order.is_confirmed then
        (db, .error "Cannot refund after confirming delivery")
      else
        let transactions := (db.txns.filter (fun t => t.order_id == some orderId)).reverse
        let alipayTxn := transactions.find? (fun t => t.payment_method == some "alipay")
        let paypalTxn := transactions.find? (fun t => t.payment_method == some "paypal")
        let alreadyRefundedAlipay := transactions.any (fun t =>
          t.txType == "refund" && t.payment_method == some "alipay")
        let alreadyRefundedPayPal := transactions.any (fun t =>
          t.txType == "refund" && t.payment_method == some "paypal")
        if alreadyRefundedAlipay || alreadyRefundedPayPal then
          (db, .error "This order has already been refunded")
        else
          match paypalTxn with
          | some pt =>
              let orderIdTok := parseKeyToken "order_id" pt.description false
              match parseKeyToken "capture_id" pt.description false with
              | none => (db, .error "Cannot determine PayPal capture id for refund")
              | some captureId =>
                  match outcome with
                  | .fail m => (db, .error ("PayPal refund failed: " ++ m))
                  | .ok a _ =>
                      let description := "Refunded via PayPal (refund_id: " ++
                        a.getD "N/A" ++ ", capture_id: " ++ captureId ++
                        ", order_id: " ++ orderIdTok.getD "N/A" ++ ")"
                      let db := (transactionCreate db
                        { user_id := userId, order_id := some orderId,
                          txType := "refund", payment_method := some "paypal",
                          amount := order.total, balance_before := 0,
                          balance_after := 0, status := none,
                          description := some description }).1
                      (db, .ok "paypal")
          | none =>
              match alipayTxn with
              | none => (db, .error "No supported payment method found for this order")
              | some atxn =>
                  let tradeNo := parseKeyToken "trade_no" atxn.description false
                  let outTradeNo := parseKeyToken "out_trade_no" atxn.description false <|>
                    parseTxnToken atxn.description
                  if tradeNo.isNone && outTradeNo.isNone then
                    (db, .error "Cannot determine Alipay trade identifier for refund")
                  else
                    match outcome with
                    | .fail m => (db, .error ("Alipay refund failed: " ++ m))
                    | .ok a _ =>
                        let description := "Refunded via Alipay (refund_fee: " ++
                          a.getD (toString order.total) ++ ", trade_no: " ++
                          tradeNo.getD "N/A" ++ ", out_request_no: " ++ outRequestNo ++ ")"
                        let db := (transactionCreate db
                          { user_id := userId, order_id := some orderId,
                            txType := "refund", payment_method := some "alipay",
                            amount := order.total, balance_before := 0,
                            balance_after := 0, status := none,
                            description := some description }).1
                        (db, .ok "alipay")

/-- The `refund_of_txn_id:<id>` marker embedded in refund-transaction
descriptions by `refundTransaction`. -/
def refundMarkerOf (txnId : Nat) : String :=
  "refund_of_txn_id:" ++ toString txnId

/-- The provider identifiers `refundTransaction` parses from the original
transaction's description before starting the database phase. -/
inductive RefundIds
  | alipay (tradeNo outTradeNo : Option String)
  | paypal (orderId : Option String) (captureId : String)
  | nets (txnRetrievalRef : String)
deriving Repr, DecidableEq

/-- `Array.prototype.join(', ')` as used for `processingDescParts`. -/
def joinComma : List String → String
  | [] => ""
  | [x] => x
  | x :: xs => x ++ ", " ++ joinComma xs

/-- The provider-identifier parsing phase of `refundTransaction`: dispatch
on the normalized payment method and parse the identifiers out of the
original transaction's description, rejecting unusable transactions. -/
def refundIdsOf (pm : String) (desc : String) : Except String RefundIds :=
  if pm == "alipay" then
    let tradeNo := parseKeyToken "trade_no" desc false
    let outTradeNo := parseKeyToken "out_trade_no" desc false <|> parseTxnToken desc
    if tradeNo.isNone && outTradeNo.isNone then
      .error "Cannot determine Alipay trade identifier for refund"
    else .ok (.alipay tradeNo outTradeNo)
  else if pm == "paypal" then
    let orderIdTok := parseKeyToken "order_id" desc false
    match parseKeyToken "capture_id" desc false with
    | none => .error "Missing PayPal capture id for refund"
    | some cap => .ok (.paypal orderIdTok cap)
  else if pm == "nets" then
    match parseKeyToken "txn_retrieval_ref" desc true with
    | none => .error "Cannot determine NETS txn reference for refund"
    | some r => .ok (.nets r)
  else .error "Only Alipay, PayPal or NETS recharge transactions can be refunded here"

/-- The provider-specific tail of `processingDescParts`. -/
def refundProcessingParts (ids : RefundIds) (outRequestNo : String) : List String :=
  match ids with
  | .paypal orderIdTok cap =>
      ["capture_id:" ++ cap, "order_id:" ++ orderIdTok.getD "N/A"]
  | .alipay tradeNo outTradeNo =>
      ["trade_no:" ++ tradeNo.getD "N/A",
       "out_trade_no:" ++ outTradeNo.getD "N/A",
       "out_request_no:" ++ outRequestNo]
  | .nets r =>
      ["txn_retrieval_ref:" ++ r, "refund_ref:" ++ outRequestNo]

/-- The `finalDesc` written by `finalizeSuccess`, per provider. -/
def refundFinalDesc (ids : RefundIds) (refundMarker outRequestNo : String)
    (a b : Option String) (refundAmount : ℚ) : String :=
  match ids with
  | .alipay tradeNo _ =>
      "Refunded via Alipay (" ++ refundMarker ++ ", refund_fee:" ++
        a.getD (toString refundAmount) ++ ", trade_no:" ++
        tradeNo.getD "N/A" ++ ", out_request_no:" ++ outRequestNo ++ ")"
  | .paypal orderIdTok cap =>
      "Refunded via PayPal (" ++ refundMarker ++ ", refund_id:" ++
        a.getD "N/A" ++ ", capture_id:" ++ cap ++ ", order_id:" ++
        orderIdTok.getD "N/A" ++ ")"
  | .nets r =>
      "Refunded via NETS (" ++ refundMarker ++ ", txn_retrieval_ref:" ++ r ++
        ", refund_ref:" ++ outRequestNo ++ ", response_code:" ++ a.getD "N/A" ++
        ", txn_status:" ++ b.getD "N/A" ++ ")"

/-- `refundTransaction`: refund a completed recharge by transaction id.
Phase 1 (atomic): re-check no non-`failed` refund carrying the marker
exists, debit the wallet, insert a `processing` refund transaction with the
marker, commit.  Phase 2 (best-effort): call the provider; on success mark
the transaction `completed`, on failure credit the wallet back in a fresh
database transaction and mark it `failed`. -/
def refundTransaction (db : Db) (userId txnId : Nat) (outRequestNo : String)
    (outcome : ProviderOutcome) : Db × Except String String :=
  match getTxn db txnId with
  | none => (db, .error "Transaction not found")
  | some txn =>
      if txn.user_id != userId then (db, .error "Access denied")
      else if txn.status != "completed" || txn.txType != "recharge" then
        (db, .error "Only completed recharge transactions can be refunded here")
      else
        let pm := jsToLower (jsTrim (txn.payment_method.getD ""))
        let refundAmount := txn.amount
        if refundAmount ≤ 0 then (db, .error "Invalid transaction amount for refund")
        else
          let refundMarker := refundMarkerOf txnId
          match refundIdsOf pm txn.description with
          | .error m => (db, .error m)
          | .ok ids =>
              let existing := (db.txns.filter (fun t =>
                t.user_id == userId && t.txType == "refund" &&
                  containsSubstr t.description refundMarker)).getLast?
              let dup := match existing with
                | some e => !(jsToLower e.status == "failed")
                | none => false
              if dup then
                (db, .error "A refund has already been issued (or is processing) for this recharge")
              else
                match debitBalanceInTx db userId refundAmount with
                | (_, .error m) => (db, .error m)
                | (db1, .ok (balanceBefore, balanceAfter)) =>
                    let processingDesc := "Refund processing (" ++
                      joinComma (refundMarker :: refundProcessingParts ids outRequestNo) ++ ")"
                    let created := transactionCreate db1
                      { user_id := userId, order_id := none, txType := "refund",
                        payment_method := some pm, amount := -refundAmount,
                        balance_before := balanceBefore, balance_after := balanceAfter,
                        status := some "processing", description := some processingDesc }
                    let db2 := created.1
                    let refundTxnId := created.2
                    match outcome with
                    | .ok a b =>
                        (updateStatusAndDescription db2 refundTxnId "completed"
                          (some (refundFinalDesc ids refundMarker outRequestNo a b refundAmount)),
                         .ok "refunded")
                    | .fail reason =>
                        let failDesc := "Refund failed (" ++ refundMarker ++ ", reason:" ++
                          String.mk (reason.data.take 180) ++ ")"
                        match creditBalanceInTx db2 userId refundAmount with
                        | (dbc, .ok _) =>
                            (updateStatusAndDescription dbc refundTxnId "failed" (some failDesc),
                             .error ("Refund failed: " ++ reason))
                        | (_, .error _) =>
                            (updateStatusAndDescription db2 refundTxnId "failed" (some failDesc),
                             .error ("Refund failed: " ++ reason))

/-! ### Predicates used by the theorems -/

/-- One ledger step keeps the completed-transaction audit invariant: every
transaction row of the new state is either an untouched old row or
satisfies `balance_after - balance_before = amount` whenever its status is
`completed`. -/
def completedDeltaOk (db db' : Db) : Prop :=
  ∀ t ∈ db'.txns, t ∈ db.txns ∨
    (t.status = "completed" → t.balance_after - t.balance_before = t.amount)

/-- Database well-formedness: transaction ids are below the auto-increment
counter and are pairwise distinct (the `transactions.id` primary key). -/
def DbWF (db : Db) : Prop :=
  (∀ t ∈ db.txns, t.id < db.nextTxnId) ∧ (db.txns.map Txn.id).Nodup

instance (db : Db) : Decidable (DbWF db) := by
  unfold DbWF; infer_instance

/-! ### Concrete example databases (used by witnesses and counterexamples) -/

/-- A user wallet holding $100. -/
def userWallet100 : WalletRow :=
  { user_id := 1, balance := 100, frozen_balance := 0, total_income := 0, total_expense := 0 }

/-- The platform/admin wallet holding $5. -/
def adminWallet5 : WalletRow :=
  { user_id := 2, balance := 5, frozen_balance := 0, total_income := 0, total_expense := 0 }

/-- Fresh database: user 1 with $100, admin 2 with $5. -/
def exDb : Db :=
  { wallets := [userWallet100, adminWallet5], orders := [], txns := [],
    nextTxnId := 1, nextOrderId := 1 }

/-- Database whose single wallet holds only $10. -/
def exDbPoor : Db :=
  { wallets := [{ user_id := 1, balance := 10, frozen_balance := 0,
                  total_income := 0, total_expense := 0 }],
    orders := [], txns := [], nextTxnId := 1, nextOrderId := 1 }

/-- A completed PayPal recharge transaction for order #9 whose description
carries the provider identifiers. -/
def exPaypalTxn : Txn :=
  { id := 3, user_id := 1, order_id := some 9, txType := "recharge",
    payment_method := some "paypal", amount := 30, balance_before := 0,
    balance_after := 30, status := "completed",
    description := "PayPal sandbox recharge (order_id: OID1, capture_id: CAP1)" }

/-- Database with an unconfirmed $30 order paid via PayPal. -/
def exDbPaypal : Db :=
  { wallets := [userWallet100],
    orders := [{ id := 9, user_id := 1, total := 30, is_confirmed := false }],
    txns := [exPaypalTxn], nextTxnId := 4, nextOrderId := 10 }

/-- A completed $50 NETS recharge transaction whose description carries the
`txn_retrieval_ref`. -/
def exNetsTxn : Txn :=
  { id := 7, user_id := 1, order_id := none, txType := "recharge",
    payment_method := some "nets", amount := 50, balance_before := 100,
    balance_after := 150, status := "completed",
    description := "NETS recharge (authorized) response_code:00 txn_status:1 txn_retrieval_ref:ABC123 (completed)" }

/-- Database after the NETS recharge above: balance $150. -/
def exDbNets : Db :=
  { wallets := [{ user_id := 1, balance := 150, frozen_balance := 0,
                  total_income := 0, total_expense := 0 }],
    orders := [], txns := [exNetsTxn], nextTxnId := 8, nextOrderId := 1 }

/-- A pending $50 NETS recharge transaction. -/
def exNetsPendingTxn : Txn :=
  { id := 5, user_id := 1, order_id := none, txType := "recharge",
    payment_method := some "nets", amount := 50, balance_before := 100,
    balance_after := 100, status := "pending",
    description := "NETS recharge (pending)" }

/-- Database with the pending NETS recharge. -/
def exDbNetsPending : Db :=
  { wallets := [userWallet100], orders := [], txns := [exNetsPendingTxn],
    nextTxnId := 6, nextOrderId := 1 }

/-- A pending $50 Alipay recharge transaction. -/
def exAlipayPendingTxn : Txn :=
  { id := 5, user_id := 1, order_id := none, txType := "recharge",
    payment_method := some "alipay", amount := 50, balance_before := 100,
    balance_after := 100, status := "pending",
    description := "Alipay sandbox recharge (pending)" }

/-- Database with the pending Alipay recharge. -/
def exDbAlipayPending : Db :=
  { wallets := [userWallet100], orders := [], txns := [exAlipayPendingTxn],
    nextTxnId := 6, nextOrderId := 1 }

/-! ### Helper lemmas -/

@[simp]
theorem updateWallet_txns (db : Db) (uid : Nat) (f : WalletRow → WalletRow) :
    (updateWallet db uid f).txns = db.txns := rfl

@[simp]
theorem updateWallet_nextTxnId (db : Db) (uid : Nat) (f : WalletRow → WalletRow) :
    (updateWallet db uid f).nextTxnId = db.nextTxnId := rfl

@[simp]
theorem ensureWallet_txns (db : Db) (uid : Nat) :
    (ensureWallet db uid).txns = db.txns := by
  unfold ensureWallet; split <;> rfl

@[simp]
theorem ensureWallet_nextTxnId (db : Db) (uid : Nat) :
    (ensureWallet db uid).nextTxnId = db.nextTxnId := by
  unfold ensureWallet; split <;> rfl

@[simp]
theorem transactionCreate_txns (db : Db) (t : TxnInput) :
    (transactionCreate db t).1.txns = db.txns ++ [mkTxn db.nextTxnId t] := rfl

@[simp]
theorem transactionCreate_snd (db : Db) (t : TxnInput) :
    (transactionCreate db t).2 = db.nextTxnId := rfl

@[simp]
theorem transactionCreate_nextTxnId (db : Db) (t : TxnInput) :
    (transactionCreate db t).1.nextTxnId = db.nextTxnId + 1 := rfl

theorem txn_eq_of_id_eq {db : Db} (hwf : (db.txns.map Txn.id).Nodup)
    {s t : Txn} (hs : s ∈ db.txns) (ht : t ∈ db.txns) (hid : s.id = t.id) :
    s = t :=
  List.inj_on_of_nodup_map hwf hs ht hid

theorem getTxnForUser_mem {db : Db} {id uid : Nat} {t : Txn}
    (h : getTxnForUser db id uid = some t) : t ∈ db.txns :=
  List.mem_of_find?_eq_some h

theorem getTxnForUser_id {db : Db} {id uid : Nat} {t : Txn}
    (h : getTxnForUser db id uid = some t) : t.id = id ∧ t.user_id = uid := by
  have := List.find?_some h
  simp only [Bool.and_eq_true, beq_iff_eq] at this
  exact this

theorem getTxn_mem {db : Db} {id : Nat} {t : Txn}
    (h : getTxn db id = some t) : t ∈ db.txns :=
  List.mem_of_find?_eq_some h

theorem getTxn_id {db : Db} {id : Nat} {t : Txn}
    (h : getTxn db id = some t) : t.id = id := by
  have := List.find?_some h
  simpa using this

/-- Characterization of the spec-modelled debit on its success path. -/
theorem debitBalanceInTx_ok {db : Db} {uid : Nat} {amt b a : ℚ} {db' : Db}
    (h : debitBalanceInTx db uid amt = (db', .ok (b, a))) :
    a = b - amt ∧ db'.txns = db.txns ∧ db'.nextTxnId = db.nextTxnId := by
  unfold debitBalanceInTx at h
  split at h
  · cases h
  · split at h
    · cases h
    · injection h with h1 h2
      injection h2 with h2
      injection h2 with hb ha
      subst h1; subst hb; subst ha
      exact ⟨rfl, rfl, rfl⟩

/-- Characterization of the spec-modelled credit on its success path. -/
theorem creditBalanceInTx_ok {db : Db} {uid : Nat} {amt : ℚ} {db' : Db}
    {v : ℚ × ℚ} (h : creditBalanceInTx db uid amt = (db', .ok v)) :
    db'.txns = db.txns ∧ db'.nextTxnId = db.nextTxnId := by
  unfold creditBalanceInTx at h
  split at h
  · cases h
  · injection h with h1 h2
    subst h1
    exact ⟨rfl, rfl⟩

/-! ### C1: the completed-transaction audit invariant, operation by
operation -/

theorem completedDeltaOk_freezeBalance (db : Db) (u o : Nat) (a : ℚ) :
    completedDeltaOk db (freezeBalance db u o a).1 := by
  intro t ht
  unfold freezeBalance at ht
  split at ht
  · exact Or.inl ht
  · split at ht
    · exact Or.inl ht
    · simp only [transactionCreate_txns, updateWallet_txns, updateWallet_nextTxnId,
        List.mem_append, List.mem_singleton] at ht
      rcases ht with h | h
      · exact Or.inl h
      · right; intro _; subst h; simp [mkTxn]

theorem completedDeltaOk_confirmDelivery (db : Db) (o u adm : Nat) (a : ℚ) :
    completedDeltaOk db (confirmDelivery db o u adm a).1 := by
  intro t ht
  unfold confirmDelivery at ht
  simp only [transactionCreate_txns, updateWallet_txns, updateWallet_nextTxnId,
    List.mem_append, List.mem_singleton] at ht
  rcases ht with h | h
  · exact Or.inl h
  · right; intro _; subst h; simp [mkTxn]

theorem completedDeltaOk_walletRefund (db : Db) (o u : Nat) (a : ℚ) :
    completedDeltaOk db (walletRefund db o u a).1 := by
  intro t ht
  unfold walletRefund at ht
  simp only [transactionCreate_txns, updateWallet_txns, updateWallet_nextTxnId,
    List.mem_append, List.mem_singleton] at ht
  rcases ht with h | h
  · exact Or.inl h
  · right; intro _; subst h; simp [mkTxn]

theorem completedDeltaOk_walletRecharge (db : Db) (u : Nat) (a : ℚ) (d : Option String) :
    completedDeltaOk db (walletRecharge db u a d).1 := by
  intro t ht
  unfold walletRecharge at ht
  dsimp only at ht
  split at ht
  · simp only [ensureWallet_txns] at ht
    exact Or.inl ht
  · simp only [transactionCreate_txns, updateWallet_txns, updateWallet_nextTxnId,
      ensureWallet_txns, ensureWallet_nextTxnId, List.mem_append, List.mem_singleton] at ht
    rcases ht with h | h
    · exact Or.inl h
    · right; intro _; subst h; simp [mkTxn]

theorem completedDeltaOk_netsTryFinalize (db : Db) (tid uid : Nat)
    (hwf : (db.txns.map Txn.id).Nodup) :
    completedDeltaOk db (netsTryFinalize db tid uid).db := by
  intro t ht
  unfold netsTryFinalize at ht
  split at ht
  · exact Or.inl ht
  next t0 h0 =>
    split at ht
    · exact Or.inl ht
    split at ht
    · exact Or.inl ht
    split at ht
    · exact Or.inl ht
    dsimp only at ht
    split at ht
    · simp only [ensureWallet_txns] at ht
      exact Or.inl ht
    next w hw =>
      simp only [updateTxn, updateWallet_txns, ensureWallet_txns, List.mem_map] at ht
      obtain ⟨s, hs, hst⟩ := ht
      by_cases hid : (s.id == t0.id) = true
      · right
        intro _
        rw [if_pos hid] at hst
        subst hst
        have hs0 : s = t0 :=
          txn_eq_of_id_eq hwf hs (getTxnForUser_mem h0) (by simpa using hid)
        subst hs0
        simp
      · rw [if_neg hid] at hst
        subst hst
        exact Or.inl hs

theorem completedDeltaOk_alipayTryFinalize (db : Db) (tid uid : Nat)
    (otn : String) (q : AlipayQuery)
    (hwf : (db.txns.map Txn.id).Nodup) :
    completedDeltaOk db (alipayTryFinalize db tid uid otn q).db := by
  intro t ht
  unfold alipayTryFinalize at ht
  split at ht
  · exact Or.inl ht
  next t0 h0 =>
    split at ht
    · exact Or.inl ht
    split at ht
    · exact Or.inl ht
    split at ht
    · exact Or.inl ht
    next tradeStatus tradeNo =>
      split at ht
      · exact Or.inl ht
      dsimp only at ht
      split at ht
      · simp only [ensureWallet_txns] at ht
        exact Or.inl ht
      next w hw =>
        simp only [updateTxn, updateWallet_txns, ensureWallet_txns, List.mem_map] at ht
        obtain ⟨s, hs, hst⟩ := ht
        by_cases hid : (s.id == t0.id) = true
        · right
          intro _
          rw [if_pos hid] at hst
          subst hst
          have hs0 : s = t0 :=
            txn_eq_of_id_eq hwf hs (getTxnForUser_mem h0) (by simpa using hid)
          subst hs0
          simp
        · rw [if_neg hid] at hst
          subst hst
          exact Or.inl hs

theorem completedDeltaOk_paypalFinalize (db : Db) (tid uid : Nat)
    (oid : String) (cap : Option String)
    (hwf : (db.txns.map Txn.id).Nodup) :
    completedDeltaOk db (paypalFinalizeRecharge db tid uid oid cap).db := by
  intro t ht
  unfold paypalFinalizeRecharge at ht
  split at ht
  · exact Or.inl ht
  next t0 h0 =>
    split at ht
    · exact Or.inl ht
    split at ht
    · exact Or.inl ht
    dsimp only at ht
    split at ht
    · simp only [ensureWallet_txns] at ht
      exact Or.inl ht
    next w hw =>
      simp only [updateTxn, updateWallet_txns, ensureWallet_txns, List.mem_map] at ht
      obtain ⟨s, hs, hst⟩ := ht
      by_cases hid : (s.id == t0.id) = true
      · right
        intro _
        rw [if_pos hid] at hst
        subst hst
        have hs0 : s = t0 :=
          txn_eq_of_id_eq hwf hs (getTxnForUser_mem h0) (by simpa using hid)
        subst hs0
        simp
      · rw [if_neg hid] at hst
        subst hst
        exact Or.inl hs

theorem completedDeltaOk_refundTransaction (db : Db) (uid tid : Nat)
    (reqNo : String) (oc : ProviderOutcome)
    (hfresh : ∀ t ∈ db.txns, t.id < db.nextTxnId) :
    completedDeltaOk db (refundTransaction db uid tid reqNo oc).1 := by
  intro t ht
  unfold refundTransaction at ht
  split at ht
  · exact Or.inl ht
  next txn h0 =>
    split at ht
    · exact Or.inl ht
    split at ht
    · exact Or.inl ht
    dsimp only at ht
    split at ht
    · exact Or.inl ht
    split at ht
    · exact Or.inl ht
    next ids hids =>
      split at ht
      · exact Or.inl ht
      split at ht
      · exact Or.inl ht
      next db1 b a hdebit =>
        obtain ⟨hab, htx1, hnext1⟩ := debitBalanceInTx_ok hdebit
        split at ht
        · -- provider success: processing transaction inserted then completed
          simp only [updateStatusAndDescription, updateTxn, transactionCreate_txns,
            transactionCreate_snd, htx1, hnext1, List.mem_map, List.mem_append,
            List.mem_singleton] at ht
          obtain ⟨s, hs, hst⟩ := ht
          rcases hs with hs | hs
          · have hne : (s.id == db.nextTxnId) = false := by
              simp only [beq_eq_false_iff_ne, ne_eq]
              exact Nat.ne_of_lt (hfresh s hs)
            simp only [hne, Bool.false_eq_true, if_false] at hst
            subst hst
            exact Or.inl hs
          · subst hs
            right
            intro _
            simp only [mkTxn, beq_self_eq_true, if_true] at hst
            subst hst
            subst hab
            simp
        · -- provider failure: compensation then the transaction is marked failed
          split at ht
          next dbc v hcredit =>
            obtain ⟨htxc, hnextc⟩ := creditBalanceInTx_ok hcredit
            simp only [updateStatusAndDescription, updateTxn, transactionCreate_txns,
              transactionCreate_snd, htxc, htx1, hnextc, hnext1, List.mem_map,
              List.mem_append, List.mem_singleton] at ht
            obtain ⟨s, hs, hst⟩ := ht
            rcases hs with hs | hs
            · have hne : (s.id == db.nextTxnId) = false := by
                simp only [beq_eq_false_iff_ne, ne_eq]
                exact Nat.ne_of_lt (hfresh s hs)
              simp only [hne, Bool.false_eq_true, if_false] at hst
              subst hst
              exact Or.inl hs
            · subst hs
              right
              intro _
              simp only [mkTxn, beq_self_eq_true, if_true] at hst
              subst hst
              subst hab
              simp
          next hcredit =>
            simp only [updateStatusAndDescription, updateTxn, transactionCreate_txns,
              transactionCreate_snd, htx1, hnext1, List.mem_map, List.mem_append,
              List.mem_singleton] at ht
            obtain ⟨s, hs, hst⟩ := ht
            rcases hs with hs | hs
            · have hne : (s.id == db.nextTxnId) = false := by
                simp only [beq_eq_false_iff_ne, ne_eq]
                exact Nat.ne_of_lt (hfresh s hs)
              simp only [hne, Bool.false_eq_true, if_false] at hst
              subst hst
              exact Or.inl hs
            · subst hs
              right
              intro _
              simp only [mkTxn, beq_self_eq_true, if_true] at hst
              subst hst
              subst hab
              simp

/-- C1: For every transaction whose status is `completed`, the recorded
`balance_after - balance_before` equals the transaction's signed amount —
amended: this holds for every transaction row created or updated by the
wallet-mutating operations (freeze/purchase, delivery-confirmation income,
wallet refund, manual recharge, the three recharge finalizers, and the
transaction-refund debit path), but NOT for the external provider-refund
rows recorded by `refundNow`/`processRefund`, which store
`balance_before = balance_after = 0` together with a non-zero amount (see
the counterexample). -/
theorem c1_completed_delta_invariant (db : Db) (hwf : DbWF db) :
    (∀ u o a, completedDeltaOk db (freezeBalance db u o a).1) ∧
    (∀ o u adm a, completedDeltaOk db (confirmDelivery db o u adm a).1) ∧
    (∀ o u a, completedDeltaOk db (walletRefund db o u a).1) ∧
    (∀ u a d, completedDeltaOk db (walletRecharge db u a d).1) ∧
    (∀ tid uid otn q, completedDeltaOk db (alipayTryFinalize db tid uid otn q).db) ∧
    (∀ tid uid, completedDeltaOk db (netsTryFinalize db tid uid).db) ∧
    (∀ tid uid oid cap, completedDeltaOk db (paypalFinalizeRecharge db tid uid oid cap).db) ∧
    (∀ uid tid reqNo oc, completedDeltaOk db (refundTransaction db uid tid reqNo oc).1) :=
  ⟨fun u o a => completedDeltaOk_freezeBalance db u o a,
   fun o u adm a => completedDeltaOk_confirmDelivery db o u adm a,
   fun o u a => completedDeltaOk_walletRefund db o u a,
   fun u a d => completedDeltaOk_walletRecharge db u a d,
   fun tid uid otn q => completedDeltaOk_alipayTryFinalize db tid uid otn q hwf.2,
   fun tid uid => completedDeltaOk_netsTryFinalize db tid uid hwf.2,
   fun tid uid oid cap => completedDeltaOk_paypalFinalize db tid uid oid cap hwf.2,
   fun uid tid reqNo oc => completedDeltaOk_refundTransaction db uid tid reqNo oc hwf.1⟩

/-- Witness for `c1_completed_delta_invariant` at the concrete database
`exDbNets` (its hypothesis `DbWF` is discharged by `decide`); the freeze
part is then evaluated at a concrete freeze. -/
theorem c1_completed_delta_invariant_witness :
    DbWF exDbNets ∧ completedDeltaOk exDbNets (freezeBalance exDbNets 1 1 30).1 :=
  ⟨by decide, (c1_completed_delta_invariant exDbNets (by decide)).1 1 1 30⟩

/-- Counterexample to C1 as stated: the `refund` transaction row recorded by
`refundNow` for a PayPal-paid order is `completed` but has
`balance_after - balance_before = 0 ≠ amount`. -/
theorem c1_counterexample :
    ∃ t ∈ (refundNow exDbPaypal 1 9 "REQ" (.ok (some "RID") none)).1.txns,
      t.status = "completed" ∧ t.balance_after - t.balance_before ≠ t.amount := by
  refine ⟨{ id := 4, user_id := 1, order_id := some 9, txType := "refund",
            payment_method := some "paypal", amount := 30, balance_before := 0,
            balance_after := 0, status := "completed",
            description := "Refunded via PayPal (refund_id: RID, capture_id: CAP1, order_id: OID1)" },
          ?_, rfl, by norm_num⟩
  rw [show (refundNow exDbPaypal 1 9 "REQ" (.ok (some "RID") none)).1.txns =
      exDbPaypal.txns ++
        [{ id := 4, user_id := 1, order_id := some 9, txType := "refund",
           payment_method := some "paypal", amount := 30, balance_before := 0,
           balance_after := 0, status := "completed",
           description := "Refunded via PayPal (refund_id: RID, capture_id: CAP1, order_id: OID1)" }]
    from rfl]
  simp

/-! ### Lookup/update commutation helpers -/

theorem find?_map_pred {α : Type} (g : α → α) (p : α → Bool)
    (hp : ∀ x, p (g x) = p x) :
    ∀ l : List α, (l.map g).find? p = (l.find? p).map g := by
  intro l
  induction l with
  | nil => rfl
  | cons a l ih =>
      by_cases h : p a = true
      · rw [List.map_cons, List.find?_cons_of_pos _ (by rw [hp a]; exact h),
          List.find?_cons_of_pos _ h, Option.map_some']
      · rw [List.map_cons, List.find?_cons_of_neg _ (by rw [hp a]; simpa using h),
          List.find?_cons_of_neg _ (by simpa using h), ih]

theorem getWallet_user_id {db : Db} {uid : Nat} {w : WalletRow}
    (h : getWallet db uid = some w) : w.user_id = uid := by
  have := List.find?_some h
  simpa using this

theorem getWallet_updateWallet (db : Db) (vid uid : Nat) (f : WalletRow → WalletRow)
    (hf : ∀ x, (f x).user_id = x.user_id) :
    getWallet (updateWallet db vid f) uid =
      (getWallet db uid).map (fun w => if w.user_id == vid then f w else w) := by
  unfold getWallet updateWallet
  exact find?_map_pred _ _ (fun x => by
    by_cases h : (x.user_id == vid) = true <;> simp [h, hf x]) db.wallets

theorem getWallet_updateWallet_self {db : Db} {uid : Nat} {w : WalletRow}
    (f : WalletRow → WalletRow) (h : getWallet db uid = some w)
    (hf : ∀ x, (f x).user_id = x.user_id) :
    getWallet (updateWallet db uid f) uid = some (f w) := by
  rw [getWallet_updateWallet db uid uid f hf, h]
  simp [getWallet_user_id h]

theorem getWallet_updateWallet_other {db : Db} {vid uid : Nat}
    (f : WalletRow → WalletRow) (hne : uid ≠ vid)
    (hf : ∀ x, (f x).user_id = x.user_id) :
    getWallet (updateWallet db vid f) uid = getWallet db uid := by
  rw [getWallet_updateWallet db vid uid f hf]
  cases h : getWallet db uid with
  | none => rfl
  | some w =>
      have := getWallet_user_id h
      simp [Option.map_some', this, hne]

theorem ensureWallet_of_some {db : Db} {uid : Nat} {w : WalletRow}
    (h : getWallet db uid = some w) : ensureWallet db uid = db := by
  unfold ensureWallet
  rw [h]

@[simp]
theorem transactionCreate_wallets (db : Db) (t : TxnInput) :
    (transactionCreate db t).1.wallets = db.wallets := rfl

@[simp]
theorem updateTxn_wallets (db : Db) (id : Nat) (f : Txn → Txn) :
    (updateTxn db id f).wallets = db.wallets := rfl

@[simp]
theorem getWallet_transactionCreate (db : Db) (t : TxnInput) (uid : Nat) :
    getWallet (transactionCreate db t).1 uid = getWallet db uid := rfl

/-! ### C2: delivery confirmation (settle) -/

/-- C2 (amended): `confirmDelivery(orderId, userId, beneficiaryId, amount)`
decrements the payer's `frozen_balance` by `amount`, credits the
beneficiary's `balance` (and `total_income`) by `amount`, and records ONE
`income` transaction for the beneficiary — not two linked transactions; no
transaction row is recorded for the payer (see the counterexample).  All of
it happens in one atomic unit of work.  The spec's scenario holds: from
payer balance $100, freezing $30 leaves balance $70 / frozen $30, and
confirming delivery leaves payer frozen $0 with the admin balance increased
by $30. -/
theorem c2_settle_amended :
    (∀ (db : Db) (orderId userId adminId : Nat) (amount : ℚ)
       (wu wa : WalletRow),
      getWallet db userId = some wu → getWallet db adminId = some wa →
      userId ≠ adminId →
      getWallet (confirmDelivery db orderId userId adminId amount).1 userId =
        some { wu with frozen_balance := wu.frozen_balance - amount } ∧
      getWallet (confirmDelivery db orderId userId adminId amount).1 adminId =
        some { wa with balance := wa.balance + amount,
                       total_income := wa.total_income + amount } ∧
      (confirmDelivery db orderId userId adminId amount).1.txns =
        db.txns ++ [mkTxn db.nextTxnId
          { user_id := adminId, order_id := some orderId, txType := "income",
            payment_method := none, amount := amount,
            balance_before := wa.balance, balance_after := wa.balance + amount,
            status := none,
            description := some ("Income from order #" ++ toString orderId ++
              " (confirmed delivery)") }]) ∧
    ((getWallet (freezeBalance exDb 1 1 30).1 1).map
        (fun w => (w.balance, w.frozen_balance)) = some (70, 30) ∧
     (getWallet (confirmDelivery (freezeBalance exDb 1 1 30).1 1 1 2 30).1 1).map
        (fun w => w.frozen_balance) = some 0 ∧
     (getWallet (confirmDelivery (freezeBalance exDb 1 1 30).1 1 1 2 30).1 2).map
        (fun w => w.balance) = some 35) := by
  constructor
  · intro db orderId userId adminId amount wu wa hu ha hne
    have hadm : adminId ≠ userId := fun h => hne h.symm
    have h1 : getWallet (updateWallet db userId
        (fun w => { w with frozen_balance := w.frozen_balance - amount })) adminId =
        some wa := by
      rw [getWallet_updateWallet_other
        (fun w => { w with frozen_balance := w.frozen_balance - amount }) hadm
        (fun x => rfl), ha]
    unfold confirmDelivery
    dsimp only
    rw [h1]
    dsimp only
    refine ⟨?_, ?_, ?_⟩
    · rw [getWallet_transactionCreate,
        getWallet_updateWallet_other
          (fun w => { w with balance := w.balance + amount,
                             total_income := w.total_income + amount }) hne
          (fun x => rfl),
        getWallet_updateWallet_self
          (fun w => { w with frozen_balance := w.frozen_balance - amount }) hu
          (fun x => rfl)]
    · rw [getWallet_transactionCreate,
        getWallet_updateWallet_self
          (fun w => { w with balance := w.balance + amount,
                             total_income := w.total_income + amount }) h1
          (fun x => rfl)]
    · simp
  · refine ⟨?_, ?_, ?_⟩ <;>
    · simp only [freezeBalance, confirmDelivery, exDb, userWallet100, adminWallet5,
        getWallet, updateWallet, ensureWallet, transactionCreate, mkTxn,
        List.find?, List.map]
      norm_num
      all_goals simp

/-- Witness for the universally quantified part of `c2_settle_amended`,
instantiated at `exDb`. -/
theorem c2_settle_amended_witness :
    getWallet exDb 1 = some userWallet100 ∧ getWallet exDb 2 = some adminWallet5 ∧
    (1 : Nat) ≠ 2 ∧
    (getWallet (confirmDelivery exDb 11 1 2 30).1 1 =
        some { userWallet100 with frozen_balance := userWallet100.frozen_balance - 30 } ∧
      getWallet (confirmDelivery exDb 11 1 2 30).1 2 =
        some { adminWallet5 with balance := adminWallet5.balance + 30,
                                 total_income := adminWallet5.total_income + 30 } ∧
      (confirmDelivery exDb 11 1 2 30).1.txns =
        exDb.txns ++ [mkTxn exDb.nextTxnId
          { user_id := 2, order_id := some 11, txType := "income",
            payment_method := none, amount := 30,
            balance_before := adminWallet5.balance,
            balance_after := adminWallet5.balance + 30,
            status := none,
            description := some ("Income from order #" ++ toString (11 : Nat) ++
              " (confirmed delivery)") }]) :=
  ⟨rfl, rfl, by decide,
   c2_settle_amended.1 exDb 11 1 2 30 userWallet100 adminWallet5 rfl rfl (by decide)⟩

/-- Counterexample to C2 as stated: confirming delivery records exactly ONE
new transaction row, and none for the payer — not "two linked
transactions". -/
theorem c2_counterexample :
    (confirmDelivery (freezeBalance exDb 1 1 30).1 1 1 2 30).1.txns.length =
      (freezeBalance exDb 1 1 30).1.txns.length + 1 ∧
    ((confirmDelivery (freezeBalance exDb 1 1 30).1 1 1 2 30).1.txns.countP
        (fun t => t.user_id == 1)) =
      ((freezeBalance exDb 1 1 30).1.txns.countP (fun t => t.user_id == 1)) := by
  exact ⟨rfl, rfl⟩

/-! ### C4: freeze at checkout -/

/-- C4: For a wallet with balance `b` and a freeze of amount `a`:
if `b < a` the freeze fails with the insufficient-funds error and the state
is fully rolled back (no balance change, no transaction row); otherwise it
moves `a` from `balance` to `frozen_balance` and records a `purchase`
transaction with the negated amount and the order id.  Checkout with
balance $10 against a $25 cart fails with the insufficient-funds error
before any order is created (the order cannot be left looking paid). -/
theorem c4_freeze_insufficient :
    (∀ (db : Db) (u o : Nat) (a : ℚ) (w : WalletRow),
      getWallet db u = some w → w.balance < a →
      freezeBalance db u o a = (db, .error "Insufficient balance")) ∧
    (∀ (db : Db) (u o : Nat) (a : ℚ) (w : WalletRow),
      getWallet db u = some w → ¬ w.balance < a →
      getWallet (freezeBalance db u o a).1 u =
        some { w with balance := w.balance - a,
                      frozen_balance := w.frozen_balance + a,
                      total_expense := w.total_expense + a } ∧
      (freezeBalance db u o a).1.txns = db.txns ++ [mkTxn db.nextTxnId
        { user_id := u, order_id := some o, txType := "purchase",
          payment_method := none, amount := -a, balance_before := w.balance,
          balance_after := w.balance - a, status := none,
          description := some ("Payment for order #" ++ toString o) }] ∧
      (freezeBalance db u o a).2 = .ok (w.balance - a)) ∧
    (checkout exDbPoor 1 [{ price := 25, quantity := 1 }] =
      (exDbPoor, .error "Insufficient balance")) := by
  refine ⟨?_, ?_, ?_⟩
  · intro db u o a w h hlt
    unfold freezeBalance
    rw [h]
    dsimp only
    rw [if_pos hlt]
  · intro db u o a w h hge
    unfold freezeBalance
    rw [h]
    dsimp only
    rw [if_neg hge]
    dsimp only
    refine ⟨?_, by simp, rfl⟩
    rw [getWallet_transactionCreate,
      getWallet_updateWallet_self
        (fun w => { w with balance := w.balance - a,
                           frozen_balance := w.frozen_balance + a,
                           total_expense := w.total_expense + a }) h
        (fun x => rfl)]
  · simp only [checkout, exDbPoor, getWallet, List.find?, List.isEmpty, List.foldl]
    norm_num

/-- Witness for `c4_freeze_insufficient`: with a $10 wallet, freezing $25
fails and leaves the database untouched; freezing $4 succeeds. -/
theorem c4_freeze_insufficient_witness :
    (getWallet exDbPoor 1 = some { user_id := 1, balance := 10, frozen_balance := 0,
                                   total_income := 0, total_expense := 0 } ∧
     (10 : ℚ) < 25 ∧
     freezeBalance exDbPoor 1 1 25 = (exDbPoor, .error "Insufficient balance")) ∧
    (¬ (10 : ℚ) < 4 ∧
     (freezeBalance exDbPoor 1 1 4).2 = .ok (10 - 4)) :=
  ⟨⟨rfl, by norm_num,
    c4_freeze_insufficient.1 exDbPoor 1 1 25 _ rfl (by norm_num)⟩,
   ⟨by norm_num,
    (c4_freeze_insufficient.2.1 exDbPoor 1 1 4 _ rfl (by norm_num)).2.2⟩⟩

/-! ### C6: checkStatus is idempotent on completed transactions -/

/-- C6: For a transaction whose status is already `completed`, each of the
three providers' status handlers returns `{status: 'paid'}` immediately:
the database is returned unchanged (no wallet or transaction mutation) and
no provider call is made, whatever the provider would have answered. -/
theorem c6_checkstatus_idempotent :
    ∀ (db : Db) (uid : Nat) (raw : String) (tid : Nat) (t : Txn),
      parseTransactionId (jsTrim raw) = some tid →
      getTxnForUser db tid uid = some t →
      t.status = "completed" →
      (∀ q, alipayHandleStatus db uid raw true q =
        ⟨db, ⟨200, true, "paid", true, none⟩, 0⟩) ∧
      (∀ p, paypalHandleStatus db uid raw true p =
        ⟨db, ⟨200, true, "paid", true, none⟩, 0⟩) ∧
      (∀ sess q, netsHandleStatus db uid raw true sess q =
        ⟨db, ⟨200, true, "paid", true, none⟩, 0⟩) := by
  intro db uid raw tid t hparse hfind hdone
  have hraw : (jsTrim raw == "") = false := by
    rcases h : (jsTrim raw == "") with _ | _
    · rfl
    · exfalso
      rw [beq_iff_eq] at h
      rw [h] at hparse
      simp [parseTransactionId, jsTrim] at hparse
  have hstat : (t.status == "completed") = true := by
    rw [beq_iff_eq]; exact hdone
  refine ⟨fun q => ?_, fun p => ?_, fun sess q => ?_⟩
  · unfold alipayHandleStatus
    simp only [hraw, Bool.false_eq_true, if_false, hparse, hfind, hstat, if_true,
      Bool.not_true]
  · unfold paypalHandleStatus
    simp only [hraw, Bool.false_eq_true, if_false, hparse, hfind, hstat, if_true,
      Bool.not_true]
  · unfold netsHandleStatus
    simp only [hraw, Bool.false_eq_true, if_false, hparse, hfind, hstat, if_true,
      Bool.not_true]

/-- Witness for `c6_checkstatus_idempotent` on the completed NETS recharge
of `exDbNets`, with a provider that would error. -/
theorem c6_checkstatus_idempotent_witness :
    (parseTransactionId (jsTrim "TXN_7") = some 7 ∧
     getTxnForUser exDbNets 7 1 = some exNetsTxn ∧
     exNetsTxn.status = "completed") ∧
    netsHandleStatus exDbNets 1 "TXN_7" true none (.err "provider down") =
      ⟨exDbNets, ⟨200, true, "paid", true, none⟩, 0⟩ ∧
    alipayHandleStatus exDbNets 1 "TXN_7" true (.err "provider down") =
      ⟨exDbNets, ⟨200, true, "paid", true, none⟩, 0⟩ :=
  ⟨⟨rfl, rfl, rfl⟩,
   (c6_checkstatus_idempotent exDbNets 1 "TXN_7" 7 exNetsTxn rfl rfl rfl).2.2
     none (.err "provider down"),
   (c6_checkstatus_idempotent exDbNets 1 "TXN_7" 7 exNetsTxn rfl rfl rfl).1
     (.err "provider down")⟩

/-! ### C7: the QR state machine -/

theorem getTxnForUser_mapTxns (db : Db) (g : Txn → Txn)
    (hg : ∀ x, (g x).id = x.id ∧ (g x).user_id = x.user_id) (tid uid : Nat) :
    getTxnForUser { db with txns := db.txns.map g } tid uid =
      (getTxnForUser db tid uid).map g := by
  unfold getTxnForUser
  exact find?_map_pred g _ (fun x => by simp [(hg x).1, (hg x).2]) db.txns

theorem getTxnForUser_updateTxn (db : Db) (id : Nat) (f : Txn → Txn)
    (hf : ∀ x, (f x).id = x.id ∧ (f x).user_id = x.user_id) (tid uid : Nat) :
    getTxnForUser (updateTxn db id f) tid uid =
      (getTxnForUser db tid uid).map (fun t => if t.id == id then f t else t) :=
  getTxnForUser_mapTxns db _ (fun x => by
    by_cases h : (x.id == id) = true <;> simp [h, (hf x).1, (hf x).2]) tid uid

@[simp]
theorem getTxnForUser_updateWallet (db : Db) (vid : Nat)
    (f : WalletRow → WalletRow) (tid uid : Nat) :
    getTxnForUser (updateWallet db vid f) tid uid = getTxnForUser db tid uid := rfl

@[simp]
theorem getWallet_updateTxn (db : Db) (id : Nat) (f : Txn → Txn) (uid : Nat) :
    getWallet (updateTxn db id f) uid = getWallet db uid := rfl

@[simp]
theorem netsMarkAuthorized_wallets (db : Db) (tid uid : Nat)
    (rc : String) (ts : Int) (ref : String) :
    (netsMarkAuthorized db tid uid rc ts ref).1.wallets = db.wallets := rfl

@[simp]
theorem getWallet_netsMarkAuthorized (db : Db) (tid uid : Nat)
    (rc : String) (ts : Int) (ref : String) (vid : Nat) :
    getWallet (netsMarkAuthorized db tid uid rc ts ref).1 vid = getWallet db vid := rfl

/-- `markAuthorizedFromGateway` turns the matching pending NETS recharge
into `authorized`. -/
theorem netsMarkAuthorized_pending {db : Db} {tid uid : Nat} {t : Txn}
    (hfind : getTxnForUser db tid uid = some t)
    (hty : t.txType = "recharge") (hpm : t.payment_method = some "nets")
    (hst : t.status = "pending") (rc : String) (ts : Int) (ref : String) :
    getTxnForUser (netsMarkAuthorized db tid uid rc ts ref).1 tid uid =
      some { t with status := "authorized",
                    description := netsAuthDesc rc ts ref } := by
  have hids := getTxnForUser_id hfind
  unfold netsMarkAuthorized
  rw [getTxnForUser_mapTxns db _ (fun x => by
    by_cases h : netsPendingHit tid uid x = true <;> simp [h]) tid uid, hfind]
  have hhit : netsPendingHit tid uid t = true := by
    simp [netsPendingHit, hids.1, hids.2, hty, hpm, hst]
  simp [hhit]

/-- NETS `tryFinalizeTransaction` on an `authorized` transaction: credits
the wallet by the transaction amount and completes the transaction. -/
theorem netsTryFinalize_authorized {db : Db} {tid uid : Nat} {t : Txn}
    {w : WalletRow}
    (hfind : getTxnForUser db tid uid = some t)
    (hty : t.txType = "recharge") (hpm : t.payment_method = some "nets")
    (hst : t.status = "authorized")
    (hw : getWallet db t.user_id = some w) :
    (netsTryFinalize db tid uid).out = .ok "paid" ∧
    getTxnForUser (netsTryFinalize db tid uid).db tid uid =
      some { t with balance_before := w.balance,
                    balance_after := w.balance + t.amount,
                    status := "completed",
                    description := t.description ++ " (completed)" } ∧
    getWallet (netsTryFinalize db tid uid).db t.user_id =
      some { w with balance := w.balance + t.amount } := by
  have hids := getTxnForUser_id hfind
  unfold netsTryFinalize
  rw [hfind]
  dsimp only
  have h1 : (t.txType != "recharge" || t.payment_method != some "nets") = false := by
    simp [hty, hpm]
  have h2 : (t.status == "completed") = false := by simp [hst]
  have h3 : (t.status != "authorized") = false := by simp [hst]
  simp only [h1, h2, h3, Bool.false_eq_true, if_false]
  rw [ensureWallet_of_some hw, hw]
  dsimp only
  refine ⟨rfl, ?_, ?_⟩
  · rw [getTxnForUser_updateTxn
        (updateWallet db t.user_id (fun w => { w with balance := w.balance + t.amount }))
        t.id
        (fun t0 => { t0 with balance_before := w.balance,
                             balance_after := w.balance + t.amount,
                             status := "completed",
                             description := t0.description ++ " (completed)" })
        (fun x => ⟨rfl, rfl⟩) tid uid,
      getTxnForUser_updateWallet, hfind]
    simp
  · rw [getWallet_updateTxn,
      getWallet_updateWallet_self
        (fun w => { w with balance := w.balance + t.amount }) hw (fun x => rfl)]

/-- C7: For a pending QR-variant (NETS) recharge, a provider report of
`response_code='00', txn_status=1` drives the transaction
pending → authorized → completed and credits the wallet by exactly the
transaction amount; the finalizer never completes a transaction that is
not currently `authorized` (so pending → completed directly is
impossible); the signed-form (Alipay) variant instead completes directly
pending → completed. -/
theorem c7_qr_state_machine :
    (∀ (db : Db) (uid : Nat) (raw : String) (tid : Nat) (t : Txn)
       (w : WalletRow) (ref : String),
      parseTransactionId (jsTrim raw) = some tid →
      getTxnForUser db tid uid = some t →
      t.status = "pending" → t.txType = "recharge" →
      t.payment_method = some "nets" →
      getWallet db t.user_id = some w →
      (getTxnForUser (netsMarkAuthorized db tid uid "00" 1 ref).1 tid uid).map
          Txn.status = some "authorized" ∧
      (netsHandleStatus db uid raw true (some ref) (.data "00" 1)).resp.status =
        "paid" ∧
      (getTxnForUser (netsHandleStatus db uid raw true (some ref)
          (.data "00" 1)).db tid uid).map Txn.status = some "completed" ∧
      getWallet (netsHandleStatus db uid raw true (some ref)
          (.data "00" 1)).db t.user_id =
        some { w with balance := w.balance + t.amount }) ∧
    (∀ (db : Db) (tid uid : Nat) (t : Txn),
      getTxnForUser db tid uid = some t →
      t.txType = "recharge" → t.payment_method = some "nets" →
      t.status ≠ "completed" → t.status ≠ "authorized" →
      netsTryFinalize db tid uid = ⟨db, .ok "pending", 0⟩) ∧
    (∀ (db : Db) (tid uid : Nat) (otn tn : String) (t : Txn) (w : WalletRow),
      getTxnForUser db tid uid = some t →
      t.status = "pending" → t.txType = "recharge" →
      t.payment_method = some "alipay" →
      getWallet db t.user_id = some w →
      (getTxnForUser (alipayTryFinalize db tid uid otn
          (.ok "TRADE_SUCCESS" tn)).db tid uid).map Txn.status =
        some "completed" ∧
      getWallet (alipayTryFinalize db tid uid otn
          (.ok "TRADE_SUCCESS" tn)).db t.user_id =
        some { w with balance := w.balance + t.amount }) := by
  refine ⟨?_, ?_, ?_⟩
  · intro db uid raw tid t w ref hparse hfind hst hty hpm hw
    have hauth := netsMarkAuthorized_pending hfind hty hpm hst "00" 1 ref
    have hw1 : getWallet (netsMarkAuthorized db tid uid "00" 1 ref).1
        ({ t with status := "authorized",
                  description := netsAuthDesc "00" 1 ref } : Txn).user_id =
        some w := by
      simpa using hw
    have hfin := netsTryFinalize_authorized hauth (by simpa using hty)
      (by simpa using hpm) rfl hw1
    have hraw : (jsTrim raw == "") = false := by
      rcases h : (jsTrim raw == "") with _ | _
      · rfl
      · exfalso
        rw [beq_iff_eq] at h
        rw [h] at hparse
        simp [parseTransactionId, jsTrim] at hparse
    have h2 : (t.status == "completed") = false := by simp [hst]
    have h3 : (t.status == "authorized") = false := by simp [hst]
    have hrun : netsHandleStatus db uid raw true (some ref) (.data "00" 1) =
        ⟨(netsTryFinalize (netsMarkAuthorized db tid uid "00" 1 ref).1 tid uid).db,
         ⟨200, true, "paid", true, none⟩, 1⟩ := by
      unfold netsHandleStatus
      simp only [hraw, Bool.false_eq_true, if_false, hparse, hfind, h2, h3,
        Bool.not_true, hfin.1]
      simp
    refine ⟨?_, ?_, ?_, ?_⟩
    · rw [hauth]; rfl
    · rw [hrun]
    · rw [hrun]
      dsimp only
      rw [hfin.2.1]
      rfl
    · rw [hrun]
      dsimp only
      have := hfin.2.2
      simpa using this
  · intro db tid uid t hfind hty hpm hnc hna
    unfold netsTryFinalize
    rw [hfind]
    dsimp only
    have h1 : (t.txType != "recharge" || t.payment_method != some "nets") = false := by
      simp [hty, hpm]
    have h2 : (t.status == "completed") = false := by simp [hnc]
    have h3 : (t.status != "authorized") = true := by simp [hna]
    simp only [h1, h2, h3, Bool.false_eq_true, if_false, if_true]
  · intro db tid uid otn tn t w hfind hst hty hpm hw
    unfold alipayTryFinalize
    rw [hfind]
    dsimp only
    have h1 : (t.txType != "recharge" || t.payment_method != some "alipay") = false := by
      simp [hty, hpm]
    have h2 : (t.status == "completed") = false := by simp [hst]
    have h3 : (("TRADE_SUCCESS" != "TRADE_SUCCESS") &&
        ("TRADE_SUCCESS" != "TRADE_FINISHED")) = false := by decide
    simp only [h1, h2, h3, Bool.false_eq_true, if_false]
    rw [ensureWallet_of_some hw, hw]
    dsimp only
    constructor
    · rw [getTxnForUser_updateTxn
          (updateWallet db t.user_id (fun w => { w with balance := w.balance + t.amount }))
          t.id
          (fun t0 => { t0 with balance_before := w.balance,
                               balance_after := w.balance + t.amount,
                               status := "completed",
                               description := "Alipay sandbox recharge (out_trade_no: " ++
                                 otn ++ ", trade_no: " ++ tn ++ ")" })
          (fun x => ⟨rfl, rfl⟩) tid uid,
        getTxnForUser_updateWallet, hfind]
      simp
    · rw [getWallet_updateTxn,
        getWallet_updateWallet_self
          (fun w => { w with balance := w.balance + t.amount }) hw (fun x => rfl)]

/-- Witness for `c7_qr_state_machine` on the pending NETS and Alipay
recharges of `exDbNetsPending` / `exDbAlipayPending`. -/
theorem c7_qr_state_machine_witness :
    (parseTransactionId (jsTrim "TXN_5") = some 5 ∧
     getTxnForUser exDbNetsPending 5 1 = some exNetsPendingTxn ∧
     exNetsPendingTxn.status = "pending" ∧
     getWallet exDbNetsPending 1 = some userWallet100) ∧
    ((getTxnForUser (netsMarkAuthorized exDbNetsPending 5 1 "00" 1 "REF").1 5 1).map
        Txn.status = some "authorized" ∧
     (netsHandleStatus exDbNetsPending 1 "TXN_5" true (some "REF")
        (.data "00" 1)).resp.status = "paid" ∧
     (getTxnForUser (netsHandleStatus exDbNetsPending 1 "TXN_5" true (some "REF")
        (.data "00" 1)).db 5 1).map Txn.status = some "completed" ∧
     getWallet (netsHandleStatus exDbNetsPending 1 "TXN_5" true (some "REF")
        (.data "00" 1)).db 1 =
       some { userWallet100 with balance := userWallet100.balance + 50 }) ∧
    netsTryFinalize exDbNetsPending 5 1 = ⟨exDbNetsPending, .ok "pending", 0⟩ :=
  ⟨⟨rfl, rfl, rfl, rfl⟩,
   c7_qr_state_machine.1 exDbNetsPending 1 "TXN_5" 5 exNetsPendingTxn
     userWallet100 "REF" rfl rfl rfl rfl rfl rfl,
   c7_qr_state_machine.2.1 exDbNetsPending 5 1 exNetsPendingTxn rfl rfl rfl
     (by decide) (by decide)⟩

/-! ### C10: recharge amount validation -/

theorem amountGuard_invalid {amount : Option ℚ}
    (h : amount = none ∨ amount.getD 0 ≤ 0 ∨ 10000 < amount.getD 0) :
    ∃ m, amountGuard amount = some m := by
  unfold amountGuard
  rcases h with h | h | h
  · subst h
    exact ⟨"Invalid amount", by norm_num⟩
  · exact ⟨_, by rw [if_pos (Or.inr h)]⟩
  · refine ⟨"Maximum recharge amount is $10,000", ?_⟩
    rw [if_neg ?_, if_pos h]
    rintro (h0 | h0) <;> linarith

theorem amountGuard_valid {a : ℚ} (h0 : 0 < a) (h1 : a ≤ 10000) :
    amountGuard (some a) = none := by
  unfold amountGuard
  rw [if_neg ?_, if_neg ?_]
  · simpa using h1
  · rintro (h | h) <;> simp only [Option.getD_some] at h <;> linarith

/-- C10: Every recharge start path (the payment-method dispatcher and each
of the three gateway `handleStart` handlers) rejects an amount that is not
a positive number or exceeds $10,000 before creating any pending
transaction or contacting any provider (the state is returned unchanged
and zero provider calls are made); amounts in `(0, 10000]` proceed to
create the pending transaction. -/
theorem c10_amount_validation :
    (∀ (db : Db) (uid : Nat) (amount : Option ℚ) (cfg prov : Bool)
       (pm : Option String),
      amount = none ∨ amount.getD 0 ≤ 0 ∨ 10000 < amount.getD 0 →
      (∃ m, alipayHandleStart db uid amount cfg = ⟨db, .error m, 0⟩) ∧
      (∃ m, paypalHandleStart db uid amount cfg prov = ⟨db, .error m, 0⟩) ∧
      (∃ m, netsHandleStart db uid amount cfg prov = ⟨db, .error m, 0⟩) ∧
      (∃ m, rechargeDispatch db uid amount pm cfg prov = ⟨db, .error m, 0⟩)) ∧
    (∀ (db : Db) (uid : Nat) (a : ℚ) (prov : Bool) (w : WalletRow),
      0 < a → a ≤ 10000 → getWallet db uid = some w →
      (netsHandleStart db uid (some a) true prov).db.txns =
        db.txns ++ [mkTxn db.nextTxnId
          { user_id := uid, order_id := none, txType := "recharge",
            payment_method := some "nets", amount := a,
            balance_before := w.balance, balance_after := w.balance,
            status := some "pending",
            description := some "NETS recharge (pending)" }] ∧
      (alipayHandleStart db uid (some a) true).db.txns =
        db.txns ++ [mkTxn db.nextTxnId
          { user_id := uid, order_id := none, txType := "recharge",
            payment_method := some "alipay", amount := roundCents a,
            balance_before := w.balance, balance_after := w.balance,
            status := some "pending",
            description := some "Alipay sandbox recharge (pending)" }]) := by
  constructor
  · intro db uid amount cfg prov pm h
    obtain ⟨m, hm⟩ := amountGuard_invalid h
    refine ⟨⟨m, ?_⟩, ⟨m, ?_⟩, ⟨m, ?_⟩, ⟨m, ?_⟩⟩
    · unfold alipayHandleStart
      rw [hm]
    · unfold paypalHandleStart
      rw [hm]
    · unfold netsHandleStart
      rw [hm]
    · unfold rechargeDispatch
      rw [hm]
  · intro db uid a prov w h0 h1 hw
    have hg := amountGuard_valid h0 h1
    constructor
    · unfold netsHandleStart
      rw [hg]
      dsimp only
      unfold netsBuildPayUrl netsCreatePending
      rw [Bool.not_true, if_neg (by simp)]
      rw [ensureWallet_of_some hw]
      dsimp only
      rw [hw]
      dsimp only
      rcases prov with _ | _ <;> simp
    · unfold alipayHandleStart
      rw [hg]
      dsimp only
      unfold alipayBuildPayUrl alipayCreatePending
      rw [Bool.not_true, if_neg (by simp)]
      dsimp only
      rw [ensureWallet_of_some hw]
      rw [hw]
      dsimp only
      simp

/-- Witness for `c10_amount_validation`: a $10,001 recharge is rejected on
all paths with the state unchanged; a $50 NETS recharge creates the
pending transaction. -/
theorem c10_amount_validation_witness :
    ((some (10001 : ℚ) = none ∨ (Option.some (10001 : ℚ)).getD 0 ≤ 0 ∨
        10000 < (Option.some (10001 : ℚ)).getD 0) ∧
      (∃ m, netsHandleStart exDb 1 (some 10001) true true = ⟨exDb, .error m, 0⟩)) ∧
    ((0 : ℚ) < 50 ∧ (50 : ℚ) ≤ 10000 ∧
      (netsHandleStart exDb 1 (some 50) true true).db.txns =
        exDb.txns ++ [mkTxn exDb.nextTxnId
          { user_id := 1, order_id := none, txType := "recharge",
            payment_method := some "nets", amount := 50,
            balance_before := userWallet100.balance,
            balance_after := userWallet100.balance,
            status := some "pending",
            description := some "NETS recharge (pending)" }]) :=
  ⟨⟨Or.inr (Or.inr (by norm_num)),
    (c10_amount_validation.1 exDb 1 (some 10001) true true none
      (Or.inr (Or.inr (by norm_num)))).2.2.1⟩,
   ⟨by norm_num, by norm_num,
    (c10_amount_validation.2 exDb 1 50 true userWallet100 (by norm_num)
      (by norm_num) rfl).1⟩⟩

/-! ### C8: the SSE polling loop -/

/-- Every run of the polling loop appends at most `fuel` further queries,
all carrying the current `frontendTimeoutStatus` flag value (the loop never
recurses with a changed flag). -/
theorem sseLoop_flags (queries : Nat → NetsQuery) (tid uid : Nat) (ref : String) :
    ∀ (fuel pc flag : Nat) (db : Db) (sent : List Nat),
      ∃ k, (sseLoop queries tid uid ref fuel pc flag db sent).2.1 =
          sent ++ List.replicate k flag ∧ k ≤ fuel := by
  intro fuel
  induction fuel with
  | zero =>
      intro pc flag db sent
      exact ⟨0, by simp [sseLoop], Nat.le_refl 0⟩
  | succ n ih =>
      intro pc flag db sent
      unfold sseLoop
      dsimp only
      split
      · exact ⟨1, by simp, by omega⟩
      · split
        · exact ⟨1, by simp, by omega⟩
        · obtain ⟨k, hk, hk2⟩ := ih (pc + 1) flag db (sent ++ [flag])
          refine ⟨k + 1, ?_, by omega⟩
          rw [hk]
          simp [List.replicate_succ, List.append_assoc]
      · split
        · exact ⟨1, by simp, by omega⟩
        · split
          · exact ⟨1, by simp, by omega⟩
          · split
            · exact ⟨1, by simp, by omega⟩
            · obtain ⟨k, hk, hk2⟩ := ih (pc + 1) flag db (sent ++ [flag])
              refine ⟨k + 1, ?_, by omega⟩
              rw [hk]
              simp [List.replicate_succ, List.append_assoc]

/-- C8 (code-bug evidence): the polling loop is bounded — it makes at most
`sseMaxPolls = 60` provider queries at the `sseIntervalMs = 5000`ms
interval and always terminates — but every query it ever sends carries
`frontend_timeout_status = 0`: when the bound is exhausted the interval is
cleared and the stream ended BEFORE the flag set to `1` could be sent, so
the provider is never instructed to finalize the failure status
server-side.  On the concrete failing input (a provider answering
"pending" on all 60 polls) the run times out after exactly 60 flag-`0`
queries. -/
theorem c8_sse_timeout_no_flag_query :
    sseMaxPolls = 60 ∧ sseIntervalMs = 5000 ∧
    (∀ (queries : Nat → NetsQuery) (db : Db) (tid uid : Nat) (ref : String),
      (sseRun queries tid uid ref db).2.1.length ≤ sseMaxPolls ∧
      ∀ f ∈ (sseRun queries tid uid ref db).2.1, f = 0) ∧
    (sseRun (fun _ => .data "05" 0) 7 1 "REF" exDbNets).2 =
      (List.replicate 60 0, SseEnd.timeout) := by
  refine ⟨rfl, rfl, ?_, rfl⟩
  intro queries db tid uid ref
  obtain ⟨k, hk, hk2⟩ := sseLoop_flags queries tid uid ref sseMaxPolls 0 0 db []
  unfold sseRun
  rw [hk]
  constructor
  · simpa using hk2
  · intro f hf
    simp only [List.nil_append] at hf
    exact List.eq_of_mem_replicate hf

/-! ### Substring lemmas for the refund marker -/

theorem containsSubstr_self (pat : String) : containsSubstr pat pat = true := by
  simp only [containsSubstr, decide_eq_true_eq]
  exact ⟨[], [], by simp⟩

theorem containsSubstr_app₁ (s t pat : String)
    (h : containsSubstr s pat = true) : containsSubstr (s ++ t) pat = true := by
  simp only [containsSubstr, decide_eq_true_eq, String.data_append] at *
  obtain ⟨x, y, hxy⟩ := h
  exact ⟨x, y ++ t.data, by rw [← hxy]; simp⟩

theorem containsSubstr_app₂ (s t pat : String)
    (h : containsSubstr t pat = true) : containsSubstr (s ++ t) pat = true := by
  simp only [containsSubstr, decide_eq_true_eq, String.data_append] at *
  obtain ⟨x, y, hxy⟩ := h
  exact ⟨s.data ++ x, y, by rw [← hxy]; simp⟩

/-- `pat` occurs in `prefix ++ pat`. -/
theorem containsSubstr_psm (p s : String) : containsSubstr (p ++ s) s = true :=
  containsSubstr_app₂ p s s (containsSubstr_self s)

/-- The marker occurs in every `finalizeSuccess` description. -/
theorem containsSubstr_refundFinalDesc (ids : RefundIds) (m r : String)
    (a b : Option String) (amt : ℚ) :
    containsSubstr (refundFinalDesc ids m r a b amt) m = true := by
  cases ids with
  | alipay tn otn =>
      exact containsSubstr_app₁ _ _ _ (containsSubstr_app₁ _ _ _
        (containsSubstr_app₁ _ _ _ (containsSubstr_app₁ _ _ _
          (containsSubstr_app₁ _ _ _ (containsSubstr_app₁ _ _ _
            (containsSubstr_app₁ _ _ _ (containsSubstr_psm _ m)))))))
  | paypal o cap =>
      exact containsSubstr_app₁ _ _ _ (containsSubstr_app₁ _ _ _
        (containsSubstr_app₁ _ _ _ (containsSubstr_app₁ _ _ _
          (containsSubstr_app₁ _ _ _ (containsSubstr_app₁ _ _ _
            (containsSubstr_app₁ _ _ _ (containsSubstr_psm _ m)))))))
  | nets ref =>
      exact containsSubstr_app₁ _ _ _ (containsSubstr_app₁ _ _ _
        (containsSubstr_app₁ _ _ _ (containsSubstr_app₁ _ _ _
          (containsSubstr_app₁ _ _ _ (containsSubstr_app₁ _ _ _
            (containsSubstr_app₁ _ _ _ (containsSubstr_app₁ _ _ _
              (containsSubstr_app₁ _ _ _ (containsSubstr_psm _ m)))))))))

/-- The marker occurs in the `processing` description. -/
theorem containsSubstr_processingDesc (m r : String) (ids : RefundIds) :
    containsSubstr ("Refund processing (" ++
      joinComma (m :: refundProcessingParts ids r) ++ ")") m = true := by
  have hj : containsSubstr (joinComma (m :: refundProcessingParts ids r)) m = true := by
    cases h : refundProcessingParts ids r with
    | nil => exact containsSubstr_self m
    | cons x xs =>
        show containsSubstr (m ++ ", " ++ joinComma (x :: xs)) m = true
        exact containsSubstr_app₁ _ _ _ (containsSubstr_app₁ _ _ _
          (containsSubstr_self m))
  exact containsSubstr_app₁ _ _ _ (containsSubstr_app₂ _ _ _ hj)

/-- The marker occurs in the `finalizeFail` description. -/
theorem containsSubstr_failDesc (m reason : String) :
    containsSubstr ("Refund failed (" ++ m ++ ", reason:" ++
      String.mk (reason.data.take 180) ++ ")") m = true :=
  containsSubstr_app₁ _ _ _ (containsSubstr_app₁ _ _ _
    (containsSubstr_app₁ _ _ _ (containsSubstr_psm _ m)))

/-! ### find? bookkeeping lemmas -/

theorem find?_append_none {α : Type} {l1 : List α} {p : α → Bool}
    (h : l1.find? p = none) (l2 : List α) :
    (l1 ++ l2).find? p = l2.find? p := by
  induction l1 with
  | nil => rfl
  | cons x l ih =>
      by_cases hx : p x = true
      · rw [List.find?_cons_of_pos _ hx] at h
        cases h
      · rw [List.find?_cons_of_neg _ (by simpa using hx)] at h
        rw [List.cons_append, List.find?_cons_of_neg _ (by simpa using hx)]
        exact ih h

theorem find?_append_some {α : Type} {l1 : List α} {p : α → Bool} {x : α}
    (h : l1.find? p = some x) (l2 : List α) :
    (l1 ++ l2).find? p = some x := by
  induction l1 with
  | nil => cases h
  | cons a l ih =>
      by_cases ha : p a = true
      · rw [List.find?_cons_of_pos _ ha] at h
        rw [List.cons_append, List.find?_cons_of_pos _ ha]
        exact h
      · rw [List.find?_cons_of_neg _ (by simpa using ha)] at h
        rw [List.cons_append, List.find?_cons_of_neg _ (by simpa using ha)]
        exact ih h

/-- The spec-modelled debit, fully evaluated on its success path. -/
theorem debitBalanceInTx_eq {db : Db} {uid : Nat} {w : WalletRow} {amt : ℚ}
    (hw : getWallet db uid = some w) (h : ¬ w.balance < amt) :
    debitBalanceInTx db uid amt =
      (updateWallet db uid (fun x => { x with balance := x.balance - amt }),
       .ok (w.balance, w.balance - amt)) := by
  unfold debitBalanceInTx
  rw [hw]
  dsimp only
  rw [if_neg h]

/-- The spec-modelled credit, fully evaluated. -/
theorem creditBalanceInTx_eq {db : Db} {uid : Nat} {w : WalletRow} {amt : ℚ}
    (hw : getWallet db uid = some w) :
    creditBalanceInTx db uid amt =
      (updateWallet db uid (fun x => { x with balance := x.balance + amt }),
       .ok (w.balance, w.balance + amt)) := by
  unfold creditBalanceInTx
  rw [hw]

@[simp]
theorem getTxn_updateWallet (db : Db) (vid : Nat) (f : WalletRow → WalletRow)
    (tid : Nat) : getTxn (updateWallet db vid f) tid = getTxn db tid := rfl

theorem getTxn_updateTxn (db : Db) (id : Nat) (f : Txn → Txn)
    (hf : ∀ x, (f x).id = x.id) (tid : Nat) :
    getTxn (updateTxn db id f) tid =
      (getTxn db tid).map (fun t => if t.id == id then f t else t) := by
  unfold getTxn updateTxn
  exact find?_map_pred _ _ (fun x => by
    by_cases h : (x.id == id) = true <;> simp [h, hf x]) db.txns

theorem getTxn_updateStatus (db : Db) (id : Nat) (stat : String)
    (desc : Option String) (tid : Nat) :
    getTxn (updateStatusAndDescription db id stat desc) tid =
      (getTxn db tid).map (fun t => if t.id == id then
        { t with status := stat, description := desc.getD "" } else t) := by
  unfold updateStatusAndDescription updateTxn getTxn
  exact find?_map_pred _ _ (fun x => by
    by_cases h : (x.id == id) = true <;> simp [h]) db.txns

@[simp]
theorem getWallet_updateStatus (db : Db) (id : Nat) (stat : String)
    (desc : Option String) (uid : Nat) :
    getWallet (updateStatusAndDescription db id stat desc) uid =
      getWallet db uid := rfl

/-- The fresh transaction id is not present among the old rows. -/
theorem find?_nextTxnId_none {db : Db}
    (hfresh : ∀ t ∈ db.txns, t.id < db.nextTxnId) :
    db.txns.find? (fun t => t.id == db.nextTxnId) = none := by
  rw [List.find?_eq_none]
  intro t ht
  simp only [beq_eq_false_iff_ne, ne_eq, beq_iff_eq]
  exact Nat.ne_of_lt (hfresh t ht)

/-! ### C3: compensation when the provider refund fails -/

/-- C3: when the local debit phase has committed (wallet debited, a
`processing` refund transaction inserted) and the provider refund call then
fails, `finalizeFail` credits the wallet back in a fresh atomic unit of
work — restoring the balance to its pre-refund value — and the refund
transaction ends in status `failed`; the caller sees the failure message. -/
theorem c3_refund_compensation :
    ∀ (db : Db) (uid tid : Nat) (reqNo reason : String) (txn : Txn)
      (w : WalletRow) (ids0 : RefundIds),
      (∀ t ∈ db.txns, t.id < db.nextTxnId) →
      getTxn db tid = some txn →
      txn.user_id = uid →
      txn.status = "completed" → txn.txType = "recharge" →
      0 < txn.amount →
      refundIdsOf (jsToLower (jsTrim (txn.payment_method.getD "")))
        txn.description = .ok ids0 →
      (∀ t ∈ db.txns, ¬(t.user_id = uid ∧ t.txType = "refund" ∧
        containsSubstr t.description (refundMarkerOf tid) = true)) →
      getWallet db uid = some w →
      ¬ w.balance < txn.amount →
      (getWallet (refundTransaction db uid tid reqNo (.fail reason)).1 uid).map
          (fun x => x.balance) = some w.balance ∧
      (getTxn (refundTransaction db uid tid reqNo (.fail reason)).1
          db.nextTxnId).map Txn.status = some "failed" ∧
      (refundTransaction db uid tid reqNo (.fail reason)).2 =
        .error ("Refund failed: " ++ reason) := by
  intro db uid tid reqNo reason txn w ids0 hfresh hget huser hstat hty hamt hids
    hnone hw hbal
  have g1 : (txn.user_id != uid) = false := by simp [huser]
  have g2 : (txn.status != "completed" || txn.txType != "recharge") = false := by
    simp [hstat, hty]
  have g3 : ¬ txn.amount ≤ 0 := by linarith
  have hfilter : db.txns.filter (fun t =>
      t.user_id == uid && t.txType == "refund" &&
      containsSubstr t.description (refundMarkerOf tid)) = [] := by
    rw [List.filter_eq_nil_iff]
    intro t ht
    have h := hnone t ht
    simp only [Bool.and_eq_true, beq_iff_eq, not_and] at h ⊢
    intro h1
    rcases h1 with ⟨h1, h2⟩
    exact h h1 h2
  have hw1 : getWallet
      (transactionCreate
        (updateWallet db uid (fun x => { x with balance := x.balance - txn.amount }))
        { user_id := uid, order_id := none, txType := "refund",
          payment_method := some (jsToLower (jsTrim (txn.payment_method.getD ""))),
          amount := -txn.amount, balance_before := w.balance,
          balance_after := w.balance - txn.amount, status := some "processing",
          description := some ("Refund processing (" ++
            joinComma (refundMarkerOf tid :: refundProcessingParts ids0 reqNo) ++
            ")") }).1 uid =
      some { w with balance := w.balance - txn.amount } := by
    rw [getWallet_transactionCreate,
      getWallet_updateWallet_self
        (fun x => { x with balance := x.balance - txn.amount }) hw (fun x => rfl)]
  unfold refundTransaction
  rw [hget]
  dsimp only
  simp only [g1, g2, Bool.false_eq_true, if_false]
  rw [if_neg g3]
  rw [hids]
  dsimp only
  rw [hfilter]
  simp only [List.getLast?_nil, Bool.false_eq_true, if_false]
  rw [debitBalanceInTx_eq hw hbal]
  dsimp only
  rw [creditBalanceInTx_eq hw1]
  dsimp only
  refine ⟨?_, ?_, rfl⟩
  · rw [updateStatusAndDescription, getWallet_updateTxn,
      getWallet_updateWallet_self
        (fun x => { x with balance := x.balance + txn.amount }) hw1 (fun x => rfl)]
    simp only [Option.map_some']
    norm_num
  · rw [getTxn_updateStatus, getTxn_updateWallet]
    have : getTxn (transactionCreate
        (updateWallet db uid (fun x => { x with balance := x.balance - txn.amount }))
        { user_id := uid, order_id := none, txType := "refund",
          payment_method := some (jsToLower (jsTrim (txn.payment_method.getD ""))),
          amount := -txn.amount, balance_before := w.balance,
          balance_after := w.balance - txn.amount, status := some "processing",
          description := some ("Refund processing (" ++
            joinComma (refundMarkerOf tid :: refundProcessingParts ids0 reqNo) ++
            ")") }).1 db.nextTxnId =
        some (mkTxn db.nextTxnId
          { user_id := uid, order_id := none, txType := "refund",
            payment_method := some (jsToLower (jsTrim (txn.payment_method.getD ""))),
            amount := -txn.amount, balance_before := w.balance,
            balance_after := w.balance - txn.amount, status := some "processing",
            description := some ("Refund processing (" ++
              joinComma (refundMarkerOf tid :: refundProcessingParts ids0 reqNo) ++
              ")") }) := by
      show ((updateWallet db uid _).txns ++ [_]).find? _ = _
      rw [updateWallet_txns, find?_append_none (find?_nextTxnId_none hfresh)]
      simp [mkTxn]
    rw [this]
    simp [mkTxn]

/-- Witness for `c3_refund_compensation`: a failed NETS provider refund of
the completed $50 recharge of `exDbNets` restores the balance to $150 and
leaves the refund transaction `failed`. -/
theorem c3_refund_compensation_witness :
    (∀ t ∈ exDbNets.txns, t.id < exDbNets.nextTxnId) ∧
    ((getWallet (refundTransaction exDbNets 1 7 "REQ1" (.fail "down")).1 1).map
        (fun x => x.balance) = some (150 : ℚ) ∧
     (getTxn (refundTransaction exDbNets 1 7 "REQ1" (.fail "down")).1
        exDbNets.nextTxnId).map Txn.status = some "failed" ∧
     (refundTransaction exDbNets 1 7 "REQ1" (.fail "down")).2 =
       .error ("Refund failed: " ++ "down")) :=
  ⟨by decide,
   c3_refund_compensation exDbNets 1 7 "REQ1" "down" exNetsTxn
     { user_id := 1, balance := 150, frozen_balance := 0, total_income := 0,
       total_expense := 0 }
     (.nets "ABC123") (by decide) rfl rfl rfl rfl (by norm_num [exNetsTxn]) rfl
     (by decide) rfl (by norm_num [exNetsTxn])⟩

/-! ### C5: refund-by-transaction-id is idempotent -/

/-- Mapping an update keyed to a fresh id over old rows is the identity. -/
theorem map_if_id {l : List Txn} {nid : Nat} (h : ∀ t ∈ l, t.id < nid)
    (f : Txn → Txn) :
    l.map (fun t => if t.id == nid then f t else t) = l := by
  induction l with
  | nil => rfl
  | cons a l ih =>
      have ha : (a.id == nid) = false := by
        simp only [beq_eq_false_iff_ne, ne_eq]
        exact Nat.ne_of_lt (h a (List.mem_cons_self a l))
      simp only [List.map_cons, ha, Bool.false_eq_true, if_false]
      rw [ih (fun t ht => h t (List.mem_cons_of_mem a ht))]

/-- C5: refunding a completed recharge twice performs exactly one debit:
the first call debits the wallet once and ends with a `completed` refund
transaction carrying the `refund_of_txn_id` marker; the second call finds
that non-`failed` marker-carrying refund, is rejected as already refunded,
and leaves the state untouched (whatever the provider would have
answered). -/
theorem c5_refund_idempotent :
    ∀ (db : Db) (uid tid : Nat) (reqNo reqNo2 : String) (a b : Option String)
      (oc2 : ProviderOutcome) (txn : Txn) (w : WalletRow) (ids0 : RefundIds),
      (∀ t ∈ db.txns, t.id < db.nextTxnId) →
      getTxn db tid = some txn →
      txn.user_id = uid →
      txn.status = "completed" → txn.txType = "recharge" →
      0 < txn.amount →
      refundIdsOf (jsToLower (jsTrim (txn.payment_method.getD "")))
        txn.description = .ok ids0 →
      (∀ t ∈ db.txns, ¬(t.user_id = uid ∧ t.txType = "refund" ∧
        containsSubstr t.description (refundMarkerOf tid) = true)) →
      getWallet db uid = some w →
      ¬ w.balance < txn.amount →
      (refundTransaction db uid tid reqNo (.ok a b)).2 = .ok "refunded" ∧
      (getWallet (refundTransaction db uid tid reqNo (.ok a b)).1 uid).map
          (fun x => x.balance) = some (w.balance - txn.amount) ∧
      (getTxn (refundTransaction db uid tid reqNo (.ok a b)).1
          db.nextTxnId).map Txn.status = some "completed" ∧
      refundTransaction (refundTransaction db uid tid reqNo (.ok a b)).1
          uid tid reqNo2 oc2 =
        ((refundTransaction db uid tid reqNo (.ok a b)).1,
         .error "A refund has already been issued (or is processing) for this recharge") := by
  intro db uid tid reqNo reqNo2 a b oc2 txn w ids0 hfresh hget huser hstat hty
    hamt hids hnone hw hbal
  have g1 : (txn.user_id != uid) = false := by simp [huser]
  have g2 : (txn.status != "completed" || txn.txType != "recharge") = false := by
    simp [hstat, hty]
  have g3 : ¬ txn.amount ≤ 0 := by linarith
  have hfilter : db.txns.filter (fun t =>
      t.user_id == uid && t.txType == "refund" &&
      containsSubstr t.description (refundMarkerOf tid)) = [] := by
    rw [List.filter_eq_nil_iff]
    intro t ht
    have h := hnone t ht
    simp only [Bool.and_eq_true, beq_iff_eq, not_and] at h ⊢
    intro h1
    rcases h1 with ⟨h1, h2⟩
    exact h h1 h2
  -- the state committed by the local debit phase
  have hw1 : getWallet
      (transactionCreate
        (updateWallet db uid (fun x => { x with balance := x.balance - txn.amount }))
        { user_id := uid, order_id := none, txType := "refund",
          payment_method := some (jsToLower (jsTrim (txn.payment_method.getD ""))),
          amount := -txn.amount, balance_before := w.balance,
          balance_after := w.balance - txn.amount, status := some "processing",
          description := some ("Refund processing (" ++
            joinComma (refundMarkerOf tid :: refundProcessingParts ids0 reqNo) ++
            ")") }).1 uid =
      some { w with balance := w.balance - txn.amount } := by
    rw [getWallet_transactionCreate,
      getWallet_updateWallet_self
        (fun x => { x with balance := x.balance - txn.amount }) hw (fun x => rfl)]
  have hrun1 : refundTransaction db uid tid reqNo (.ok a b) =
      (updateStatusAndDescription
        (transactionCreate
          (updateWallet db uid (fun x => { x with balance := x.balance - txn.amount }))
          { user_id := uid, order_id := none, txType := "refund",
            payment_method := some (jsToLower (jsTrim (txn.payment_method.getD ""))),
            amount := -txn.amount, balance_before := w.balance,
            balance_after := w.balance - txn.amount, status := some "processing",
            description := some ("Refund processing (" ++
              joinComma (refundMarkerOf tid :: refundProcessingParts ids0 reqNo) ++
              ")") }).1
        db.nextTxnId "completed"
        (some (refundFinalDesc ids0 (refundMarkerOf tid) reqNo a b txn.amount)),
       .ok "refunded") := by
    unfold refundTransaction
    rw [hget]
    dsimp only
    simp only [g1, g2, Bool.false_eq_true, if_false]
    rw [if_neg g3]
    rw [hids]
    dsimp only
    rw [hfilter]
    simp only [List.getLast?_nil, Bool.false_eq_true, if_false]
    rw [debitBalanceInTx_eq hw hbal]
    dsimp only
    simp only [transactionCreate_snd, updateWallet_nextTxnId]
  refine ⟨by rw [hrun1], ?_, ?_, ?_⟩
  · rw [hrun1]
    dsimp only
    rw [getWallet_updateStatus, hw1]
    rfl
  · rw [hrun1]
    dsimp only
    rw [getTxn_updateStatus]
    have hfind : getTxn (transactionCreate
        (updateWallet db uid (fun x => { x with balance := x.balance - txn.amount }))
        { user_id := uid, order_id := none, txType := "refund",
          payment_method := some (jsToLower (jsTrim (txn.payment_method.getD ""))),
          amount := -txn.amount, balance_before := w.balance,
          balance_after := w.balance - txn.amount, status := some "processing",
          description := some ("Refund processing (" ++
            joinComma (refundMarkerOf tid :: refundProcessingParts ids0 reqNo) ++
            ")") }).1 db.nextTxnId =
        some (mkTxn db.nextTxnId
          { user_id := uid, order_id := none, txType := "refund",
            payment_method := some (jsToLower (jsTrim (txn.payment_method.getD ""))),
            amount := -txn.amount, balance_before := w.balance,
            balance_after := w.balance - txn.amount, status := some "processing",
            description := some ("Refund processing (" ++
              joinComma (refundMarkerOf tid :: refundProcessingParts ids0 reqNo) ++
              ")") }) := by
      show ((updateWallet db uid _).txns ++ [_]).find? _ = _
      rw [updateWallet_txns, find?_append_none (find?_nextTxnId_none hfresh)]
      simp [mkTxn]
    rw [hfind]
    simp [mkTxn]
  · -- the second call is rejected by the duplicate-refund check
    rw [hrun1]
    dsimp only
    -- name the state after the first call
    generalize hdesc :
      ("Refund processing (" ++
        joinComma (refundMarkerOf tid :: refundProcessingParts ids0 reqNo) ++
        ")") = pdesc
    set inp : TxnInput :=
      { user_id := uid, order_id := none, txType := "refund",
        payment_method := some (jsToLower (jsTrim (txn.payment_method.getD ""))),
        amount := -txn.amount, balance_before := w.balance,
        balance_after := w.balance - txn.amount, status := some "processing",
        description := some pdesc } with hinp
    set db2 := (transactionCreate
      (updateWallet db uid (fun x => { x with balance := x.balance - txn.amount }))
      inp).1 with hdb2
    set fd := refundFinalDesc ids0 (refundMarkerOf tid) reqNo a b txn.amount with hfd
    set db' := updateStatusAndDescription db2 db.nextTxnId "completed" (some fd)
      with hdb'
    set newTxn : Txn := { mkTxn db.nextTxnId inp with status := "completed", description := fd } with hnew
    -- facts about db'
    have hget2 : getTxn db' tid = some txn := by
      rw [hdb', getTxn_updateStatus, hdb2]
      have : getTxn (transactionCreate
          (updateWallet db uid (fun x => { x with balance := x.balance - txn.amount }))
          inp).1 tid = some txn := by
        show ((updateWallet db uid _).txns ++ [_]).find? _ = _
        rw [updateWallet_txns, find?_append_some hget]
      rw [this]
      have hid : (txn.id == db.nextTxnId) = false := by
        simp only [beq_eq_false_iff_ne, ne_eq]
        exact Nat.ne_of_lt (hfresh txn (getTxn_mem hget))
      simp only [Option.map_some', hid, Bool.false_eq_true, if_false]
    have hfilter2 : db'.txns.filter (fun t =>
        t.user_id == uid && t.txType == "refund" &&
        containsSubstr t.description (refundMarkerOf tid)) = [newTxn] := by
      have htxns : db'.txns = db.txns.map
          (fun t => if t.id == db.nextTxnId then
            { t with status := "completed", description := fd } else t) ++
          [newTxn] := by
        rw [hdb']
        show ((updateWallet db uid _).txns ++ [mkTxn db.nextTxnId inp]).map _ = _
        rw [updateWallet_txns, List.map_append]
        simp [hnew, mkTxn]
      rw [htxns, List.filter_append, map_if_id hfresh, hfilter]
      rw [List.nil_append]
      have hpred : (newTxn.user_id == uid && newTxn.txType == "refund" &&
          containsSubstr newTxn.description (refundMarkerOf tid)) = true := by
        simp only [hnew, mkTxn, hinp, hfd, Bool.and_eq_true, beq_iff_eq,
          and_self, true_and, and_true]
        exact containsSubstr_refundFinalDesc ids0 _ reqNo a b txn.amount
      simp only [List.filter, hpred]
    have g1' : (txn.user_id != uid) = false := g1
    unfold refundTransaction
    rw [hget2]
    dsimp only
    simp only [g1, g2, Bool.false_eq_true, if_false]
    rw [if_neg g3]
    rw [hids]
    dsimp only
    rw [hfilter2]
    simp only [List.getLast?_singleton]
    have hdup : (!(jsToLower newTxn.status == "failed")) = true := by
      have h1 : newTxn.status = "completed" := by rw [hnew]
      rw [h1]
      decide
    rw [if_pos hdup]

/-- Witness for `c5_refund_idempotent`: refunding the completed $50 NETS
recharge of `exDbNets` succeeds once (balance drops to $100, refund row
`completed`), and an identical second request is rejected without touching
the state. -/
theorem c5_refund_idempotent_witness :
    (∀ t ∈ exDbNets.txns, t.id < exDbNets.nextTxnId) ∧
    ((refundTransaction exDbNets 1 7 "REQ1" (.ok (some "SUCCESS") none)).2 =
        .ok "refunded" ∧
     (getWallet (refundTransaction exDbNets 1 7 "REQ1"
          (.ok (some "SUCCESS") none)).1 1).map (fun x => x.balance) =
        some ((150 : ℚ) - exNetsTxn.amount) ∧
     (getTxn (refundTransaction exDbNets 1 7 "REQ1"
          (.ok (some "SUCCESS") none)).1 exDbNets.nextTxnId).map Txn.status =
        some "completed" ∧
     refundTransaction (refundTransaction exDbNets 1 7 "REQ1"
          (.ok (some "SUCCESS") none)).1 1 7 "REQ2"
          (.ok (some "SUCCESS") none) =
       ((refundTransaction exDbNets 1 7 "REQ1" (.ok (some "SUCCESS") none)).1,
        .error "A refund has already been issued (or is processing) for this recharge")) :=
  ⟨by decide,
   c5_refund_idempotent exDbNets 1 7 "REQ1" "REQ2" (some "SUCCESS") none
     (.ok (some "SUCCESS") none) exNetsTxn
     { user_id := 1, balance := 150, frozen_balance := 0, total_income := 0,
       total_expense := 0 }
     (.nets "ABC123") (by decide) rfl rfl rfl rfl (by norm_num [exNetsTxn]) rfl
     (by decide) rfl (by norm_num [exNetsTxn])⟩

/-! ### C9: request-signing canonicalization -/

/-- With pairwise-distinct keys (a JavaScript object cannot hold two equal
keys), `find?` on the key returns the unique pair holding it. -/
theorem find?_key_eq {params : List (String × Option String)} {k : String}
    {v : Option String} (hnodup : (params.map Prod.fst).Nodup)
    (hmem : (k, v) ∈ params) :
    params.find? (fun q => q.1 == k) = some (k, v) := by
  induction params with
  | nil => cases hmem
  | cons p rest ih =>
      simp only [List.map_cons, List.nodup_cons] at hnodup
      rcases List.mem_cons.mp hmem with he | hr
      · rw [← he]
        exact List.find?_cons_of_pos _ (by simp)
      · have hk : (p.1 == k) = false := by
          simp only [beq_eq_false_iff_ne, ne_eq]
          intro hpk
          exact hnodup.1 (hpk ▸ List.mem_map_of_mem Prod.fst hr)
        rw [List.find?_cons_of_neg _ (by simp [hk])]
        exact ih hnodup.2 hr

/-- With pairwise-distinct keys, property access returns the pair's own
value. -/
theorem jsLookup_mem {params : List (String × Option String)}
    {p : String × Option String} (hnodup : (params.map Prod.fst).Nodup)
    (hmem : p ∈ params) : jsLookup params p.1 = p.2 := by
  obtain ⟨k, v⟩ := p
  unfold jsLookup
  rw [find?_key_eq hnodup hmem]
  rfl

/-- Every kept pair comes from a parameter with that key and value. -/
theorem specKeptPairs_mem {params : List (String × Option String)}
    {q : String × String} (h : q ∈ specKeptPairs params) :
    (q.1, some q.2) ∈ params := by
  obtain ⟨k, w⟩ := q
  rcases List.mem_filterMap.mp h with ⟨p, hp, hf⟩
  obtain ⟨k', ov⟩ := p
  cases ov with
  | none => simp at hf
  | some v =>
      by_cases hv : (v == "") = true
      · simp [hv] at hf
      · simp only [Bool.not_eq_true] at hv
        simp only [hv, Bool.false_eq_true, if_false, Option.some.injEq,
          Prod.mk.injEq] at hf
        rcases hf with ⟨h1, h2⟩
        subst h1
        subst h2
        exact hp

/-- The keys kept by `signParams` are exactly the keys of the kept pairs,
in order. -/
theorem presentKeys_eq_keptKeys (params : List (String × Option String))
    (hnodup : (params.map Prod.fst).Nodup) :
    presentKeys params = (specKeptPairs params).map Prod.fst := by
  unfold presentKeys specKeptPairs
  suffices h : ∀ l : List (String × Option String), (∀ p ∈ l, p ∈ params) →
      (l.map Prod.fst).filter (fun k =>
        match jsLookup params k with
        | some v => !(v == "")
        | none => false) =
      (l.filterMap (fun p =>
        match p.2 with
        | some v => if v == "" then none else some (p.1, v)
        | none => none)).map Prod.fst by
    exact h params (fun p hp => hp)
  intro l
  induction l with
  | nil => intro _; rfl
  | cons p l ih =>
      intro hsub
      obtain ⟨k, ov⟩ := p
      have hlk : jsLookup params k = ov :=
        jsLookup_mem hnodup (hsub _ (List.mem_cons_self _ l))
      have htail := ih (fun q hq => hsub q (List.mem_cons_of_mem _ hq))
      cases ov with
      | none =>
          simp only [List.map_cons, List.filter_cons, List.filterMap_cons, hlk]
          simpa using htail
      | some v =>
          by_cases hv : (v == "") = true
          · simp only [List.map_cons, List.filter_cons, List.filterMap_cons,
              hlk, hv]
            simpa using htail
          · simp only [Bool.not_eq_true] at hv
            simp only [List.map_cons, List.filter_cons, List.filterMap_cons,
              hlk, hv]
            simpa using htail

/-- `orderedInsert` on keys mirrors `orderedInsert` on pairs. -/
theorem orderedInsert_fst (p : String × String) (l : List (String × String)) :
    (l.map Prod.fst).orderedInsert strLe p.1 =
      (l.orderedInsert pairLe p).map Prod.fst := by
  induction l with
  | nil => rfl
  | cons q l ih =>
      simp only [List.map_cons, List.orderedInsert]
      by_cases h : strLe p.1 q.1
      · rw [if_pos h, if_pos (show pairLe p q from h)]
        simp
      · rw [if_neg h, if_neg (show ¬ pairLe p q from h)]
        simp only [List.map_cons, ih]

/-- Sorting the keys is sorting the pairs by key and projecting. -/
theorem insertionSort_fst (l : List (String × String)) :
    (l.map Prod.fst).insertionSort strLe =
      (l.insertionSort pairLe).map Prod.fst := by
  induction l with
  | nil => rfl
  | cons p l ih =>
      simp only [List.map_cons, List.insertionSort, ih, orderedInsert_fst]

/-- C9: for every parameter map (distinct keys, as in a JavaScript object)
whose signature is non-empty, `signParams`/`buildGatewayUrl` behave as
specified: the string that is signed keeps exactly the parameters whose
values are neither undefined, null, nor empty, sorts their keys
lexicographically and joins them as key=value pairs with the ampersand,
and the outgoing request is those parameters plus the signature of that
string as an additional sign parameter. -/
theorem c9_sign_canonicalization :
    ∀ (rsaSign : String → String) (params : List (String × Option String)),
      (params.map Prod.fst).Nodup →
      rsaSign (signContent params) ≠ "" →
      signContent params = specSignContent params ∧
      buildGatewayParams rsaSign params = specSignedQuery rsaSign params := by
  intro rsaSign params hnodup hsig
  have hcontent : signContent params = specSignContent params := by
    unfold signContent specSignContent
    rw [presentKeys_eq_keptKeys params hnodup, insertionSort_fst]
    rw [List.map_map]
    refine congrArg _ (List.map_congr_left ?_)
    intro q hq
    have hq' : q ∈ specKeptPairs params :=
      (List.Perm.mem_iff (List.perm_insertionSort pairLe _)).mp hq
    have hv : jsLookup params q.1 = some q.2 :=
      jsLookup_mem hnodup (specKeptPairs_mem hq')
    simp [Function.comp, hv]
  refine ⟨hcontent, ?_⟩
  unfold buildGatewayParams specSignedQuery signParams
  rw [List.filterMap_append]
  refine congrArg₂ _ rfl ?_
  have hs : (rsaSign (specSignContent params) == "") = false := by
    rw [← hcontent]
    simpa using hsig
  simp only [List.filterMap_cons, hcontent, hs, Bool.false_eq_true, if_false,
    List.filterMap_nil]

/-- Witness for `c9_sign_canonicalization` on a concrete parameter map:
`c` (empty string) and `d` (null) are dropped, `a`/`b` are sorted in front
by key, and the signature of the canonical string is appended. -/
theorem c9_sign_canonicalization_witness :
    (([("b", some "2"), ("a", some "1"), ("c", some ""),
        ("d", (none : Option String))].map Prod.fst).Nodup ∧
     (fun s => "sig:" ++ s) (signContent
        [("b", some "2"), ("a", some "1"), ("c", some ""), ("d", none)]) ≠
       "") ∧
    (signContent [("b", some "2"), ("a", some "1"), ("c", some ""),
        ("d", none)] =
      specSignContent [("b", some "2"), ("a", some "1"), ("c", some ""),
        ("d", none)] ∧
     buildGatewayParams (fun s => "sig:" ++ s)
        [("b", some "2"), ("a", some "1"), ("c", some ""), ("d", none)] =
      specSignedQuery (fun s => "sig:" ++ s)
        [("b", some "2"), ("a", some "1"), ("c", some ""), ("d", none)]) :=
  ⟨⟨by decide, by decide⟩,
   c9_sign_canonicalization (fun s => "sig:" ++ s)
     [("b", some "2"), ("a", some "1"), ("c", some ""), ("d", none)]
     (by decide) (by decide)⟩

end Supermarket
